import Mathlib

/-!
# SongDecoder — verification of the tag-to-vibe classification core

A shallow embedding of the pure core of the SongDecoder repository:

* vibe tag derivation (`src/lib/constants/vibe-tags.ts`),
* distance ranking (`src/lib/constants/recommendation-weights.ts`),
* explanation templating (`src/lib/constants/explanation-templates.ts`),
* feature estimation (`src/lib/lastfm/feature-estimation.ts`),
* tag normalization and the vibe classifier (`src/lib/constants/vibe-taxonomy.ts`).

JavaScript numbers are modelled as rationals (`ℚ`): every constant in the
source tables is a short decimal, and every claim under scrutiny concerns
orderings, threshold comparisons and exact table values whose outcome is
identical for IEEE doubles and for exact rationals at these magnitudes.
Strings are modelled as Lean `String`s; the JavaScript string operations
used by the code (`toLowerCase`, `trim`, `normalize('NFD')` followed by
stripping combining marks, regex replacement, `includes`) are embedded as
executable functions over `List Char`, faithful on ASCII and on the
Latin-1 letter block (the character ranges actually exercised by the
static tables and test data of the repository).
-/

namespace SongDecoder

/-! ## Vibe tag derivation (`vibe-tags.ts`) -/

/-- Input for `deriveVibeTags` (`VibeFeaturesInput` in the source). -/
structure VibeFeaturesInput where
  energy : ℚ
  valence : ℚ
  danceability : ℚ
  acousticness : ℚ
  speechiness : ℚ
  loudness : ℚ

def ENERGY_THRESHOLDS_LOW : ℚ := 0.35
def ENERGY_THRESHOLDS_HIGH : ℚ := 0.7

def MOOD_THRESHOLDS_LOW : ℚ := 0.35
def MOOD_THRESHOLDS_HIGH : ℚ := 0.7

def GROOVE_THRESHOLDS_LOW : ℚ := 0.4
def GROOVE_THRESHOLDS_HIGH : ℚ := 0.75

def TEXTURE_THRESHOLDS_LOW : ℚ := 0.25
def TEXTURE_THRESHOLDS_HIGH : ℚ := 0.6

def VOCAL_THRESHOLD : ℚ := 0.33

def INTENSITY_THRESHOLDS_LOUD : ℚ := -6
def INTENSITY_THRESHOLDS_QUIET : ℚ := -12

def deriveEnergyTag (energy : ℚ) : String :=
  if energy < ENERGY_THRESHOLDS_LOW then "Chill"
  else if energy > ENERGY_THRESHOLDS_HIGH then "High-Energy"
  else "Balanced"

def deriveMoodTag (valence : ℚ) : String :=
  if valence < MOOD_THRESHOLDS_LOW then "Moody"
  else if valence > MOOD_THRESHOLDS_HIGH then "Bright"
  else "Bittersweet"

def deriveGrooveTag (danceability : ℚ) : String :=
  if danceability < GROOVE_THRESHOLDS_LOW then "Loose"
  else if danceability > GROOVE_THRESHOLDS_HIGH then "Dance-Forward"
  else "Groovy"

def deriveTextureTag (acousticness : ℚ) : String :=
  if acousticness < TEXTURE_THRESHOLDS_LOW then "Produced"
  else if acousticness > TEXTURE_THRESHOLDS_HIGH then "Acoustic"
  else "Mixed"

def deriveVocalTag (speechiness : ℚ) : String :=
  if speechiness > VOCAL_THRESHOLD then "Talky/Rap-Adjacent"
  else "Melodic Vocals"

def deriveIntensityTag (loudness : ℚ) : String :=
  if loudness > INTENSITY_THRESHOLDS_LOUD then "Punchy"
  else if loudness < INTENSITY_THRESHOLDS_QUIET then "Soft"
  else "Moderate"

def deriveVibeTags (features : VibeFeaturesInput) : List String :=
  [ deriveEnergyTag features.energy,
    deriveMoodTag features.valence,
    deriveGrooveTag features.danceability,
    deriveTextureTag features.acousticness,
    deriveVocalTag features.speechiness,
    deriveIntensityTag features.loudness ]

/-! ## Distance ranking (`recommendation-weights.ts`) -/

/-- The nine features used for distance calculation (`DistanceFeatures`). -/
structure DistanceFeatures where
  danceability : ℚ
  energy : ℚ
  valence : ℚ
  acousticness : ℚ
  instrumentalness : ℚ
  speechiness : ℚ
  liveness : ℚ
  tempo : ℚ
  loudness : ℚ

/-- Per-dimension normalized differences (`dimensionDiffs` record). -/
structure DimensionDiffs where
  danceability : ℚ
  energy : ℚ
  valence : ℚ
  acousticness : ℚ
  instrumentalness : ℚ
  speechiness : ℚ
  liveness : ℚ
  tempo : ℚ
  loudness : ℚ

structure DistanceResult where
  totalDistance : ℚ
  dimensionDiffs : DimensionDiffs

def RERANK_WEIGHTS_danceability : ℚ := 1.2
def RERANK_WEIGHTS_energy : ℚ := 1.2
def RERANK_WEIGHTS_valence : ℚ := 1.0
def RERANK_WEIGHTS_acousticness : ℚ := 0.9
def RERANK_WEIGHTS_instrumentalness : ℚ := 0.6
def RERANK_WEIGHTS_speechiness : ℚ := 0.6
def RERANK_WEIGHTS_liveness : ℚ := 0.3
def RERANK_WEIGHTS_tempo : ℚ := 0.8
def RERANK_WEIGHTS_loudness : ℚ := 0.3

def NORMALIZATION_TEMPO_DIVISOR : ℚ := 60
def NORMALIZATION_LOUDNESS_DIVISOR : ℚ := 20

/-- `calculateDistance` from `recommendation-weights.ts`. -/
def calculateDistance (seed candidate : DistanceFeatures) : DistanceResult :=
  let dimensionDiffs : DimensionDiffs :=
    { danceability := |candidate.danceability - seed.danceability|
      energy := |candidate.energy - seed.energy|
      valence := |candidate.valence - seed.valence|
      acousticness := |candidate.acousticness - seed.acousticness|
      instrumentalness := |candidate.instrumentalness - seed.instrumentalness|
      speechiness := |candidate.speechiness - seed.speechiness|
      liveness := |candidate.liveness - seed.liveness|
      tempo := min (|candidate.tempo - seed.tempo| / NORMALIZATION_TEMPO_DIVISOR) 1
      loudness := min (|candidate.loudness - seed.loudness| / NORMALIZATION_LOUDNESS_DIVISOR) 1 }
  let totalDistance : ℚ :=
    RERANK_WEIGHTS_danceability * dimensionDiffs.danceability +
    RERANK_WEIGHTS_energy * dimensionDiffs.energy +
    RERANK_WEIGHTS_valence * dimensionDiffs.valence +
    RERANK_WEIGHTS_acousticness * dimensionDiffs.acousticness +
    RERANK_WEIGHTS_instrumentalness * dimensionDiffs.instrumentalness +
    RERANK_WEIGHTS_speechiness * dimensionDiffs.speechiness +
    RERANK_WEIGHTS_liveness * dimensionDiffs.liveness +
    RERANK_WEIGHTS_tempo * dimensionDiffs.tempo +
    RERANK_WEIGHTS_loudness * dimensionDiffs.loudness
  { totalDistance := totalDistance, dimensionDiffs := dimensionDiffs }

/-! ## Explanation templating (`explanation-templates.ts`) -/

structure ExplanationInput where
  bpm : ℚ
  key : String
  mode : String
  timeSignature : ℚ
  danceability : ℚ
  energy : ℚ
  valence : ℚ
  acousticness : ℚ
  instrumentalness : ℚ
  loudness : ℚ

structure ExplanationSections where
  rhythm : List String
  harmony_mood : List String
  sound_texture : List String

structure ExplanationOutput where
  tldr : List String
  sections : ExplanationSections

def getTldrGroove (bpm danceability : ℚ) : String :=
  let isSlow := bpm < 90
  let isMedium := 90 ≤ bpm ∧ bpm ≤ 120
  let isFast := 120 < bpm ∧ bpm ≤ 150
  let isVeryFast := 150 < bpm
  let isLowDance := danceability < 0.4
  let isMidDance := 0.4 ≤ danceability ∧ danceability ≤ 0.75
  let isHighDance := 0.75 < danceability
  if isSlow ∧ isLowDance then
    "A slow, contemplative rhythm that invites deep listening."
  else if isSlow ∧ isMidDance then
    "A laid-back tempo with a subtle groove that sways gently."
  else if isSlow ∧ isHighDance then
    "A slow burner with surprisingly strong rhythmic pull."
  else if isMedium ∧ isLowDance then
    "A moderate pace that emphasizes melody over movement."
  else if isMedium ∧ isMidDance then
    "A comfortable mid-tempo groove that feels natural and easy."
  else if isMedium ∧ isHighDance then
    "A mid-tempo track with strong dance-floor appeal."
  else if isFast ∧ isLowDance then
    "A brisk tempo but with restrained rhythmic intensity."
  else if isFast ∧ isMidDance then
    "An upbeat tempo with solid rhythmic momentum."
  else if isFast ∧ isHighDance then
    "A driving, dance-ready rhythm that keeps energy high."
  else if isVeryFast ∧ isLowDance then
    "A racing tempo that prioritizes intensity over groove."
  else if isVeryFast ∧ isMidDance then
    "A fast-paced track with steady rhythmic foundation."
  else
    "A high-speed rhythm built for maximum movement."

def getTldrMood (mode : String) (valence : ℚ) : String :=
  let isMajor := mode = "Major"
  let isMinor := mode = "Minor"
  let isUnknownMode := mode = "Unknown"
  let isLowValence := valence < 0.35
  let isMidValence := 0.35 ≤ valence ∧ valence ≤ 0.7
  if isMajor ∧ isLowValence then
    "A major key with unexpectedly dark emotional undertones."
  else if isMajor ∧ isMidValence then
    "A balanced major-key mood that feels thoughtful and grounded."
  else if isMajor ∧ 0.7 < valence then
    "A bright, uplifting major-key sound that radiates positivity."
  else if isMinor ∧ isLowValence then
    "A minor key that deepens the introspective, moody atmosphere."
  else if isMinor ∧ isMidValence then
    "A minor-key foundation with nuanced emotional texture."
  else if isMinor ∧ 0.7 < valence then
    "A minor key with surprising warmth and emotional lift."
  else if isUnknownMode ∧ isLowValence then
    "A deeply atmospheric, emotionally weighty mood."
  else if isUnknownMode ∧ isMidValence then
    "A balanced emotional tone with room for interpretation."
  else
    "An emotionally bright and engaging overall feel."

def getTldrTexture (acousticness loudness : ℚ) : String :=
  let isAcoustic := 0.6 < acousticness
  let isMixed := 0.25 ≤ acousticness ∧ acousticness ≤ 0.6
  let isProduced := acousticness < 0.25
  let isPunchy := -6 < loudness
  let isModerate := -12 ≤ loudness ∧ loudness ≤ -6
  let isSoft := loudness < -12
  if isAcoustic ∧ isPunchy then
    "Acoustic instrumentation with forward, present sound."
  else if isAcoustic ∧ isModerate then
    "Warm acoustic textures at comfortable listening levels."
  else if isAcoustic ∧ isSoft then
    "Gentle acoustic tones that feel intimate and delicate."
  else if isMixed ∧ isPunchy then
    "A blend of organic and produced sounds with punchy presence."
  else if isMixed ∧ isModerate then
    "Balanced production mixing acoustic and electronic elements."
  else if isMixed ∧ isSoft then
    "Subtle production with restrained, atmospheric layers."
  else if isProduced ∧ isPunchy then
    "Heavily produced with bold, in-your-face sound design."
  else if isProduced ∧ isModerate then
    "Polished production with clear, well-balanced mix."
  else
    "Softly produced textures that prioritize atmosphere."

/-- Rhythm section bullets: one BPM bullet, one time-signature bullet and one
danceability bullet, exactly as pushed by `getRhythmBullets`. -/
def getRhythmBullets (bpm timeSignature danceability : ℚ) : List String :=
  [ if bpm < 80 then
      "At " ++ toString bpm ++ " BPM, this track moves at a deliberate, slow pace."
    else if bpm < 100 then
      "At " ++ toString bpm ++ " BPM, this track has a relaxed, laid-back tempo."
    else if bpm < 120 then
      "At " ++ toString bpm ++ " BPM, this track sits in a comfortable mid-tempo zone."
    else if bpm < 140 then
      "At " ++ toString bpm ++ " BPM, this track has an upbeat, energetic tempo."
    else
      "At " ++ toString bpm ++ " BPM, this track races forward with high-speed momentum.",
    if timeSignature = 4 then
      "The 4/4 time signature provides a familiar, steady pulse."
    else if timeSignature = 3 then
      "The 3/4 time signature creates a waltz-like, flowing feel."
    else if timeSignature = 6 then
      "The 6/8 time signature adds a rolling, compound groove."
    else if timeSignature = 5 then
      "The unusual 5/4 time signature creates an asymmetric, distinctive rhythm."
    else if timeSignature = 7 then
      "The 7/4 time signature brings complexity and unpredictability."
    else
      "The " ++ toString timeSignature ++ "/4 time signature shapes the rhythmic foundation.",
    if danceability < 0.3 then
      "Rhythmically sparse, this track prioritizes texture over groove."
    else if danceability < 0.5 then
      "The rhythm has subtle movement without demanding dance engagement."
    else if danceability < 0.7 then
      "A solid rhythmic backbone encourages natural body movement."
    else
      "Strong beat patterns create an irresistible urge to move." ]

/-- Harmony/mood section bullets: a key bullet, a mode bullet only when the
mode is known, and a valence bullet (`getHarmonyMoodBullets`). -/
def getHarmonyMoodBullets (key mode : String) (valence : ℚ) : List String :=
  [ if key = "Unknown" then
      "The harmonic center is unclear from metadata, but the mood and groove cues remain strong."
    else
      "Rooted in " ++ key ++ " " ++ mode.toLower ++ ", the harmony sets a clear tonal foundation." ]
  ++ (if mode = "Major" then
        ["The major mode generally conveys openness and resolution."]
      else if mode = "Minor" then
        ["The minor mode adds depth and a sense of tension or longing."]
      else [])
  ++ [ if valence < 0.25 then
        "Emotionally heavy, the track carries a dark, introspective weight."
      else if valence < 0.45 then
        "A melancholic undercurrent colors the emotional landscape."
      else if valence < 0.65 then
        "The emotional tone sits in a balanced, bittersweet middle ground."
      else if valence < 0.85 then
        "Warmth and positivity flow through the harmonic choices."
      else
        "Bright and exuberant, the track overflows with joyful energy." ]

def getSoundTextureBullets (acousticness instrumentalness loudness : ℚ) : List String :=
  [ if 0.75 < acousticness then
      "Predominantly acoustic, natural instrument tones define the sound."
    else if 0.5 < acousticness then
      "Acoustic elements play a significant role in the sonic palette."
    else if 0.25 < acousticness then
      "Production blends acoustic and electronic elements in balance."
    else
      "Electronic production and synthesis dominate the sound design.",
    if 0.7 < instrumentalness then
      "The track leans heavily instrumental, with minimal vocal presence."
    else if 0.4 < instrumentalness then
      "Instruments and vocals share the spotlight in balanced proportion."
    else
      "Vocals take center stage as the primary melodic vehicle.",
    if -5 < loudness then
      "Mastered loud and punchy for maximum impact."
    else if -8 < loudness then
      "Solid dynamic range with assertive but controlled loudness."
    else if -12 < loudness then
      "Moderate loudness preserves subtle dynamic nuances."
    else
      "Quiet and restrained, allowing for intimate listening." ]

/-- `generateExplanation` from `explanation-templates.ts`. -/
def generateExplanation (input : ExplanationInput) : ExplanationOutput :=
  { tldr := [ getTldrGroove input.bpm input.danceability,
              getTldrMood input.mode input.valence,
              getTldrTexture input.acousticness input.loudness ]
    sections :=
      { rhythm := getRhythmBullets input.bpm input.timeSignature input.danceability
        harmony_mood := getHarmonyMoodBullets input.key input.mode input.valence
        sound_texture := getSoundTextureBullets input.acousticness input.instrumentalness input.loudness } }

/-! ## JavaScript string primitives

`String.prototype.toLowerCase` and `String.prototype.includes`, embedded over
`List Char`.  `jsToLower` is the Unicode simple lowercase mapping restricted
to ASCII and the Latin-1 uppercase block — the identity on every character
appearing in the repository's static tables after lowercasing. -/

def jsToLower (c : Char) : Char :=
  if 0x41 ≤ c.toNat ∧ c.toNat ≤ 0x5A then Char.ofNat (c.toNat + 32)
  else if 0xC0 ≤ c.toNat ∧ c.toNat ≤ 0xDE ∧ c.toNat ≠ 0xD7 then Char.ofNat (c.toNat + 32)
  else c

def jsToLowerStr (s : String) : String := ⟨s.data.map jsToLower⟩

/-- `haystack.includes(needle)`: some suffix of the haystack starts with the
needle. -/
def strIncludes (haystack needle : String) : Bool :=
  haystack.data.tails.any (fun t => needle.data.isPrefixOf t)

/-! ## Feature estimation (`feature-estimation.ts`) -/

/-- The eleven field names of `EstimatedFeatures` plus `key`. -/
inductive FeatureName where
  | tempo | key | mode | time_signature | loudness | energy | danceability
  | valence | acousticness | instrumentalness | liveness | speechiness
  deriving DecidableEq, BEq

structure EstimatedFeatures where
  tempo : ℚ
  key : ℚ
  mode : ℚ
  time_signature : ℚ
  loudness : ℚ
  energy : ℚ
  danceability : ℚ
  valence : ℚ
  acousticness : ℚ
  instrumentalness : ℚ
  liveness : ℚ
  speechiness : ℚ
  deriving DecidableEq

/-- A tag profile: matching substring patterns plus a partial feature record,
modelled as an association list over `FeatureName`. -/
structure TagProfile where
  patterns : List String
  features : List (FeatureName × ℚ)

def DEFAULT_FEATURES : EstimatedFeatures :=
  { tempo := 120, key := -1, mode := 1, time_signature := 4, loudness := -8,
    energy := 0.5, danceability := 0.5, valence := 0.5, acousticness := 0.3,
    instrumentalness := 0.1, liveness := 0.15, speechiness := 0.05 }

def TAG_PROFILES : List TagProfile := [
  ⟨["energetic", "powerful", "intense", "heavy", "aggressive", "hard"],
   [(.energy, 0.85), (.loudness, -5), (.valence, 0.55)]⟩,
  ⟨["chill", "relaxing", "mellow", "calm", "peaceful", "ambient"],
   [(.energy, 0.25), (.loudness, -12), (.valence, 0.45), (.tempo, 90)]⟩,
  ⟨["upbeat", "happy", "feel good", "fun", "party"],
   [(.energy, 0.75), (.valence, 0.8), (.danceability, 0.7)]⟩,
  ⟨["fast", "uptempo", "driving"],
   [(.tempo, 140), (.energy, 0.75)]⟩,
  ⟨["slow", "ballad", "downtempo"],
   [(.tempo, 75), (.energy, 0.35), (.danceability, 0.35)]⟩,
  ⟨["metal", "death metal", "black metal", "thrash", "hardcore"],
   [(.energy, 0.95), (.loudness, -4), (.tempo, 160), (.valence, 0.35), (.danceability, 0.3),
    (.instrumentalness, 0.2)]⟩,
  ⟨["punk", "punk rock", "pop punk"],
   [(.energy, 0.85), (.tempo, 160), (.loudness, -5), (.danceability, 0.5)]⟩,
  ⟨["rock", "alternative rock", "indie rock", "hard rock"],
   [(.energy, 0.7), (.loudness, -6), (.tempo, 125), (.acousticness, 0.15)]⟩,
  ⟨["classic rock", "soft rock", "70s", "80s rock"],
   [(.energy, 0.6), (.loudness, -7), (.tempo, 115), (.acousticness, 0.25)]⟩,
  ⟨["pop", "dance pop", "synthpop", "electropop"],
   [(.energy, 0.7), (.danceability, 0.7), (.valence, 0.65), (.tempo, 120), (.loudness, -5)]⟩,
  ⟨["electronic", "edm", "electro", "electronica"],
   [(.energy, 0.75), (.danceability, 0.7), (.acousticness, 0.05), (.instrumentalness, 0.4),
    (.tempo, 128)]⟩,
  ⟨["house", "deep house", "tech house"],
   [(.energy, 0.7), (.danceability, 0.8), (.tempo, 125), (.acousticness, 0.05),
    (.instrumentalness, 0.5)]⟩,
  ⟨["techno", "minimal techno"],
   [(.energy, 0.8), (.danceability, 0.75), (.tempo, 130), (.acousticness, 0.02),
    (.instrumentalness, 0.7)]⟩,
  ⟨["trance", "progressive trance", "psytrance"],
   [(.energy, 0.8), (.danceability, 0.65), (.tempo, 138), (.acousticness, 0.02),
    (.instrumentalness, 0.6), (.valence, 0.6)]⟩,
  ⟨["dubstep", "brostep", "bass"],
   [(.energy, 0.85), (.danceability, 0.6), (.tempo, 140), (.loudness, -4), (.acousticness, 0.02)]⟩,
  ⟨["drum and bass", "dnb", "jungle"],
   [(.energy, 0.85), (.danceability, 0.65), (.tempo, 174), (.acousticness, 0.02),
    (.instrumentalness, 0.4)]⟩,
  ⟨["hip hop", "hip-hop", "rap", "trap"],
   [(.energy, 0.65), (.danceability, 0.75), (.speechiness, 0.25), (.tempo, 95), (.valence, 0.5),
    (.acousticness, 0.1)]⟩,
  ⟨["r&b", "rnb", "rhythm and blues", "neo soul"],
   [(.energy, 0.5), (.danceability, 0.65), (.valence, 0.55), (.tempo, 95), (.acousticness, 0.3)]⟩,
  ⟨["soul", "motown", "funk"],
   [(.energy, 0.65), (.danceability, 0.7), (.valence, 0.7), (.tempo, 110), (.acousticness, 0.35)]⟩,
  ⟨["jazz", "smooth jazz", "bebop", "swing"],
   [(.energy, 0.45), (.danceability, 0.5), (.acousticness, 0.6), (.instrumentalness, 0.5),
    (.valence, 0.55), (.tempo, 120)]⟩,
  ⟨["blues", "delta blues", "chicago blues"],
   [(.energy, 0.5), (.danceability, 0.45), (.acousticness, 0.55), (.valence, 0.4), (.tempo, 95)]⟩,
  ⟨["classical", "orchestra", "symphony", "baroque", "romantic"],
   [(.energy, 0.35), (.danceability, 0.2), (.acousticness, 0.9), (.instrumentalness, 0.95),
    (.valence, 0.4), (.tempo, 90), (.loudness, -15)]⟩,
  ⟨["folk", "folk rock", "traditional"],
   [(.energy, 0.45), (.danceability, 0.45), (.acousticness, 0.75), (.valence, 0.5), (.tempo, 100)]⟩,
  ⟨["country", "americana", "bluegrass"],
   [(.energy, 0.55), (.danceability, 0.55), (.acousticness, 0.6), (.valence, 0.6), (.tempo, 115)]⟩,
  ⟨["acoustic", "unplugged", "singer-songwriter"],
   [(.energy, 0.35), (.danceability, 0.4), (.acousticness, 0.85), (.valence, 0.45), (.tempo, 100),
    (.loudness, -12)]⟩,
  ⟨["reggae", "dub", "ska"],
   [(.energy, 0.55), (.danceability, 0.7), (.valence, 0.7), (.tempo, 90), (.acousticness, 0.3)]⟩,
  ⟨["latin", "salsa", "merengue", "cumbia", "bachata"],
   [(.energy, 0.7), (.danceability, 0.8), (.valence, 0.75), (.tempo, 105), (.acousticness, 0.25)]⟩,
  ⟨["reggaeton", "dembow"],
   [(.energy, 0.75), (.danceability, 0.85), (.valence, 0.7), (.tempo, 95), (.speechiness, 0.15)]⟩,
  ⟨["k-pop", "kpop", "j-pop", "jpop"],
   [(.energy, 0.75), (.danceability, 0.75), (.valence, 0.7), (.tempo, 125), (.loudness, -5)]⟩,
  ⟨["afrobeats", "afropop", "afrofusion", "afroswing"],
   [(.energy, 0.65), (.danceability, 0.8), (.valence, 0.7), (.tempo, 105), (.acousticness, 0.2)]⟩,
  ⟨["amapiano", "afro house"],
   [(.energy, 0.6), (.danceability, 0.85), (.valence, 0.65), (.tempo, 115), (.acousticness, 0.1),
    (.instrumentalness, 0.3)]⟩,
  ⟨["highlife"],
   [(.energy, 0.55), (.danceability, 0.7), (.valence, 0.7), (.tempo, 110), (.acousticness, 0.4)]⟩,
  ⟨["hyperpop", "pc music", "glitch pop", "bubblegum bass", "nightcore", "digicore"],
   [(.energy, 0.85), (.danceability, 0.65), (.valence, 0.6), (.tempo, 150), (.loudness, -4),
    (.acousticness, 0.02)]⟩,
  ⟨["darkwave", "coldwave"],
   [(.energy, 0.55), (.danceability, 0.55), (.valence, 0.3), (.tempo, 120), (.acousticness, 0.1)]⟩,
  ⟨["indie", "indie pop", "indie folk"],
   [(.energy, 0.5), (.danceability, 0.5), (.acousticness, 0.4), (.valence, 0.45), (.tempo, 115)]⟩,
  ⟨["shoegaze", "dream pop", "ethereal"],
   [(.energy, 0.45), (.danceability, 0.4), (.acousticness, 0.2), (.valence, 0.4), (.tempo, 100),
    (.loudness, -8)]⟩,
  ⟨["post-rock", "post rock"],
   [(.energy, 0.55), (.danceability, 0.25), (.acousticness, 0.25), (.instrumentalness, 0.7),
    (.valence, 0.35), (.tempo, 100)]⟩,
  ⟨["ambient", "drone", "dark ambient"],
   [(.energy, 0.2), (.danceability, 0.15), (.acousticness, 0.3), (.instrumentalness, 0.9),
    (.valence, 0.3), (.tempo, 80), (.loudness, -18)]⟩,
  ⟨["lofi", "lo-fi", "chillhop"],
   [(.energy, 0.35), (.danceability, 0.55), (.acousticness, 0.35), (.instrumentalness, 0.6),
    (.valence, 0.45), (.tempo, 85)]⟩,
  ⟨["sad", "melancholic", "depressing", "dark"],
   [(.valence, 0.2), (.energy, 0.35), (.mode, 0)]⟩,
  ⟨["romantic", "love", "sensual"],
   [(.valence, 0.55), (.energy, 0.45), (.tempo, 95)]⟩,
  ⟨["angry", "aggressive", "rage"],
   [(.energy, 0.9), (.valence, 0.3), (.loudness, -4)]⟩,
  ⟨["live", "concert", "bootleg"],
   [(.liveness, 0.8), (.acousticness, 0.4)]⟩,
  ⟨["instrumental", "no vocals"],
   [(.instrumentalness, 0.9), (.speechiness, 0.02)]⟩,
  ⟨["vocal", "vocals", "a cappella", "acappella"],
   [(.instrumentalness, 0.05), (.speechiness, 0.1), (.acousticness, 0.5)]⟩,
  ⟨["spoken word", "poetry", "spoken"],
   [(.speechiness, 0.8), (.instrumentalness, 0.1), (.danceability, 0.3)]⟩ ]

/-- A profile matches when some pattern is a substring of some
(lowercased) input tag. -/
def profileMatches (normalizedTags : List String) (p : TagProfile) : Bool :=
  p.patterns.any (fun pattern =>
    normalizedTags.any (fun tag => strIncludes tag (jsToLowerStr pattern)))

/-- The list of adjustment samples collected for one feature, in profile
order (the per-feature value list of the `adjustments` map). -/
def featureSamples (matchedProfiles : List TagProfile) (f : FeatureName) : List ℚ :=
  matchedProfiles.filterMap (fun p => p.features.lookup f)

def clamp (value minValue maxValue : ℚ) : ℚ := min (max value minValue) maxValue

/-- One feature's final value: the mean of its samples when any profile
adjusted it, the default otherwise. -/
def featureValue (matchedProfiles : List TagProfile) (f : FeatureName) (default : ℚ) : ℚ :=
  let samples := featureSamples matchedProfiles f
  if samples.length = 0 then default else samples.sum / samples.length

/-- The non-empty branch of `estimateFeaturesFromTags`, as a function of the
set of matched profiles: averaged adjustments over defaults, then clamping of
the nine bounded features. -/
def estimateFromMatched (matchedProfiles : List TagProfile) : EstimatedFeatures :=
  { tempo := clamp (featureValue matchedProfiles .tempo DEFAULT_FEATURES.tempo) 40 220
    key := featureValue matchedProfiles .key DEFAULT_FEATURES.key
    mode := featureValue matchedProfiles .mode DEFAULT_FEATURES.mode
    time_signature := featureValue matchedProfiles .time_signature DEFAULT_FEATURES.time_signature
    loudness := clamp (featureValue matchedProfiles .loudness DEFAULT_FEATURES.loudness) (-60) 0
    energy := clamp (featureValue matchedProfiles .energy DEFAULT_FEATURES.energy) 0 1
    danceability := clamp (featureValue matchedProfiles .danceability DEFAULT_FEATURES.danceability) 0 1
    valence := clamp (featureValue matchedProfiles .valence DEFAULT_FEATURES.valence) 0 1
    acousticness := clamp (featureValue matchedProfiles .acousticness DEFAULT_FEATURES.acousticness) 0 1
    instrumentalness :=
      clamp (featureValue matchedProfiles .instrumentalness DEFAULT_FEATURES.instrumentalness) 0 1
    liveness := clamp (featureValue matchedProfiles .liveness DEFAULT_FEATURES.liveness) 0 1
    speechiness := clamp (featureValue matchedProfiles .speechiness DEFAULT_FEATURES.speechiness) 0 1 }

/-- `estimateFeaturesFromTags` from `feature-estimation.ts`. -/
def estimateFeaturesFromTags (tags : List String) : EstimatedFeatures :=
  if tags.length = 0 then DEFAULT_FEATURES
  else estimateFromMatched
    (TAG_PROFILES.filter (fun p => profileMatches (tags.map jsToLowerStr) p))

/-! ## Tag normalization (`vibe-taxonomy.ts`)

`normalizeTag` lowercases and trims, strips combining diacritical marks after
NFD decomposition, replaces every character that is not a word character,
whitespace or `&` by a space, collapses whitespace runs to single spaces,
trims again, and finally substitutes through the static synonym table. -/

/-- The combining diacritical marks block U+0300–U+036F stripped by the
source's `replace(/[̀-ͯ]/g, '')`. -/
def isCombiningMark (c : Char) : Bool :=
  decide (0x300 ≤ c.toNat ∧ c.toNat ≤ 0x36F)

/-- The base letter of the NFD decomposition of a Latin-1 precomposed
lowercase letter; the identity on every other character (which is either
NFD-invariant or outside the modelled character range). -/
def nfdBase (c : Char) : Char :=
  if 0xE0 ≤ c.toNat ∧ c.toNat ≤ 0xE5 then 'a'
  else if c.toNat = 0xE7 then 'c'
  else if 0xE8 ≤ c.toNat ∧ c.toNat ≤ 0xEB then 'e'
  else if 0xEC ≤ c.toNat ∧ c.toNat ≤ 0xEF then 'i'
  else if c.toNat = 0xF1 then 'n'
  else if 0xF2 ≤ c.toNat ∧ c.toNat ≤ 0xF6 then 'o'
  else if 0xF9 ≤ c.toNat ∧ c.toNat ≤ 0xFC then 'u'
  else if c.toNat = 0xFD ∨ c.toNat = 0xFF then 'y'
  else c

/-- `normalize('NFD')` followed by stripping the combining marks: each
decomposable letter is replaced by its base letter (its combining marks are
emitted and immediately stripped), and pre-existing marks are stripped. -/
def stripDiacritics (l : List Char) : List Char :=
  (l.map nfdBase).filter (fun c => !(isCombiningMark c))

/-- The JavaScript `\s` class (also the set trimmed by `String.trim`). -/
def isJsSpace (c : Char) : Bool :=
  decide (c.toNat = 0x20 ∨ c.toNat = 0x09 ∨ c.toNat = 0x0A ∨ c.toNat = 0x0B ∨
    c.toNat = 0x0C ∨ c.toNat = 0x0D ∨ c.toNat = 0xA0 ∨ c.toNat = 0x1680 ∨
    (0x2000 ≤ c.toNat ∧ c.toNat ≤ 0x200A) ∨ c.toNat = 0x2028 ∨ c.toNat = 0x2029 ∨
    c.toNat = 0x202F ∨ c.toNat = 0x205F ∨ c.toNat = 0x3000 ∨ c.toNat = 0xFEFF)

/-- The JavaScript `\w` class. -/
def isWordChar (c : Char) : Bool :=
  decide ((0x61 ≤ c.toNat ∧ c.toNat ≤ 0x7A) ∨ (0x41 ≤ c.toNat ∧ c.toNat ≤ 0x5A) ∨
    (0x30 ≤ c.toNat ∧ c.toNat ≤ 0x39) ∨ c.toNat = 0x5F)

/-- `replace(/[^\w\s&]/g, ' ')`. -/
def replaceNonWord (l : List Char) : List Char :=
  l.map (fun c => if isWordChar c || isJsSpace c || c.toNat == 0x26 then c else ' ')

/-- `replace(/\s+/g, ' ')`: every maximal whitespace run becomes one space.
The flag records whether the previous character belonged to a run. -/
def collapseWsGo (prevSpace : Bool) : List Char → List Char
  | [] => []
  | c :: rest =>
    if isJsSpace c then
      if prevSpace then collapseWsGo true rest
      else ' ' :: collapseWsGo true rest
    else c :: collapseWsGo false rest

def collapseWs (l : List Char) : List Char := collapseWsGo false l

def trimEnd (l : List Char) : List Char := (l.reverse.dropWhile isJsSpace).reverse

/-- `String.trim`. -/
def trimWs (l : List Char) : List Char := trimEnd (l.dropWhile isJsSpace)

/-- The character-level part of `normalizeTag` (everything before the synonym
table): lowercase, trim, strip diacritics, punctuation to space, collapse
whitespace, trim. -/
def normalizeChars (l : List Char) : List Char :=
  trimWs (collapseWs (replaceNonWord (stripDiacritics (trimWs (l.map jsToLower)))))

def SYNONYM_MAP : List (String × String) := [
  ("hiphop", "hip hop"),
  ("r and b", "r&b"),
  ("rhythm and blues", "r&b"),
  ("rnb", "r&b"),
  ("electronica", "electronic"),
  ("lofi", "lo fi"),
  ("chillout", "chill"),
  ("downtempo", "chill"),
  ("postpunk", "post punk"),
  ("dreampop", "dream pop"),
  ("indiepop", "indie pop"),
  ("indierock", "indie rock"),
  ("indietronic", "indietronica"),
  ("alternativerock", "alternative rock"),
  ("alt rock", "alternative rock"),
  ("progrock", "progressive rock"),
  ("prog rock", "progressive rock"),
  ("synthpop", "synth pop"),
  ("electro pop", "electropop"),
  ("kpop", "k pop"),
  ("jpop", "j pop"),
  ("poppunk", "pop punk"),
  ("dnb", "drum and bass"),
  ("d&b", "drum and bass"),
  ("drum & bass", "drum and bass"),
  ("drum n bass", "drum and bass"),
  ("afro beats", "afrobeats"),
  ("afro pop", "afropop"),
  ("reggaeton", "reggaeton"),
  ("techno house", "tech house"),
  ("newwave", "new wave"),
  ("neosoul", "neo soul"),
  ("nudisco", "nu disco"),
  ("singer songwriter", "singer songwriter"),
  ("posthardcore", "post hardcore") ]

/-- Record lookup `SYNONYM_MAP[n]` on the association list. -/
def synLookup : List (String × String) → String → Option String
  | [], _ => none
  | (k, v) :: rest, s => if s = k then some v else synLookup rest s

/-- `normalizeTag` from `vibe-taxonomy.ts`. -/
def normalizeTag (tag : String) : String :=
  let n : String := ⟨normalizeChars tag.data⟩
  (synLookup SYNONYM_MAP n).getD n

/-- `Array.from(new Set(l))`: deduplication keeping first occurrences. -/
def dedupKeepFirstAux (seen : List String) : List String → List String
  | [] => []
  | x :: xs =>
    if x ∈ seen then dedupKeepFirstAux seen xs
    else x :: dedupKeepFirstAux (x :: seen) xs

def dedupKeepFirst (l : List String) : List String := dedupKeepFirstAux [] l

/-- `normalizeTags`: normalize each tag, filter out empties, deduplicate. -/
def normalizeTags (tags : List String) : List String :=
  dedupKeepFirst ((tags.map normalizeTag).filter (fun t => t ≠ ""))

/-! ## Canonical strings: the image of `normalizeChars`

A canonical character list contains only lowercase ASCII letters, digits,
underscores, `&` and single spaces, with no leading, trailing or doubled
space.  `normalizeChars` always produces a canonical list and is the
identity on canonical lists — the heart of idempotence of `normalizeTag`. -/

/-- Characters that can appear in a normalized tag. -/
def goodChar (c : Char) : Bool :=
  decide ((0x61 ≤ c.toNat ∧ c.toNat ≤ 0x7A) ∨ (0x30 ≤ c.toNat ∧ c.toNat ≤ 0x39) ∨
    c.toNat = 0x5F ∨ c.toNat = 0x26 ∨ c.toNat = 0x20)

def NoTwoSpaces (a b : Char) : Prop := ¬(a = ' ' ∧ b = ' ')

structure Canonical (l : List Char) : Prop where
  good : ∀ c ∈ l, goodChar c = true
  chain : l.Chain' NoTwoSpaces
  head : ∀ c, l.head? = some c → c ≠ ' '
  last : ∀ c, l.getLast? = some c → c ≠ ' '

/-! ## Vibe taxonomy data (`vibe-taxonomy.ts`) -/

/-- The descriptor chip vocabulary (`DESCRIPTORS`). -/
def DESCRIPTORS : List String := [
  "euphoric", "melancholic", "bittersweet", "hopeful", "nostalgic",
  "yearning", "cathartic", "tender", "defiant", "wistful",
  "triumphant", "anxious", "peaceful", "rebellious", "romantic",
  "introspective", "playful", "somber", "uplifting", "haunting",
  "late-night", "early-morning", "golden-hour", "midnight", "sunset",
  "rainy-day", "road-trip", "party-starter", "wind-down", "workout",
  "study-session", "coffee-shop", "bedroom", "festival", "commute",
  "shimmering", "gritty", "lush", "sparse", "layered",
  "crystalline", "fuzzy", "crisp", "warm", "cold",
  "raw", "polished", "lo-fi", "hi-fi", "organic",
  "synthetic", "acoustic", "electric", "hazy", "sharp",
  "smooth",
  "driving", "floating", "pulsing", "swaying", "stomping",
  "gliding", "crashing", "building", "releasing", "simmering",
  "explosive", "gentle", "relentless", "hypnotic", "kinetic",
  "dreamy", "ethereal", "cinematic", "intimate", "anthemic",
  "moody", "sunny", "dark", "bright", "smoky",
  "spacious", "claustrophobic", "expansive", "minimal", "maximal",
  "indie-coded", "alt-leaning", "pop-adjacent", "underground",
  "mainstream-friendly", "cult-classic", "timeless", "futuristic", "retro",
  "experimental", "accessible", "niche", "crossover", "genre-fluid",
  "brain-scratch", "earworm", "repeatable", "grower", "instant-hit",
  "deep-cut", "crowd-pleaser", "hidden-gem", "sleeper", "anthem",
  "bass-heavy", "treble-bright", "mid-focused", "sub-rattling",
  "vocal-forward", "instrumental-led", "beat-driven", "melody-first",
  "texture-rich", "groove-locked", "dynamic", "compressed", "breathing",
  "city-nights", "countryside", "coastal", "urban", "suburban",
  "global", "local", "DIY", "authentic",
  "curated", "effortless", "intentional", "spontaneous", "crafted",
  "storytelling" ]

/-! The reusable tag-group constants `T` of the source. -/

def T_TRAP : List String := ["trap", "drill", "dark trap", "hard trap", "grime"]
def T_RAP : List String := ["rap", "hip hop"]
def T_RAP_ALT : List String :=
  ["alternative hip hop", "experimental hip hop", "art rap", "experimental rap",
   "abstract hip hop"]
def T_RAP_MELODIC : List String := ["melodic rap", "melodic hip hop"]
def T_RNB : List String := ["r&b", "alternative r&b", "contemporary r&b"]
def T_SOUL : List String := ["neo soul", "soul", "classic soul"]
def T_SLOW_RNB : List String := ["slow jam", "80s r&b", "quiet storm"]
def T_FUNK_CLASSIC : List String := ["motown", "disco", "classic funk", "boogie"]
def T_FUNK_MODERN : List String := ["nu disco", "future funk", "funky", "house funk"]
def T_HOUSE : List String := ["house", "tech house", "deep house", "minimal house"]
def T_TECHNO : List String := ["techno", "trance", "progressive house", "uplifting trance"]
def T_BASS : List String := ["dubstep", "riddim", "brostep", "drum and bass", "bass music"]
def T_EDM : List String := ["edm", "big room", "main stage", "electro house", "mainstage"]
def T_SYNTH : List String :=
  ["synth pop", "electropop", "indie electronic", "chillsynth", "future pop"]
def T_ROCK_CLASSIC : List String :=
  ["classic rock", "70s rock", "80s rock", "arena rock", "southern rock"]
def T_ROCK_ALT : List String :=
  ["alternative rock", "grunge", "post grunge", "garage rock", "noise pop"]
def T_METAL : List String := ["hard rock", "heavy metal", "thrash", "speed metal", "death metal"]
def T_METAL_CORE : List String := ["metalcore", "hardcore punk", "beatdown", "deathcore"]
def T_INDIE : List String := ["indie rock", "indie pop"]
def T_INDIE_SLEAZE : List String :=
  ["indie sleaze", "electroclash", "bloghouse", "new rave", "dance punk"]
def T_EMO : List String := ["emo", "midwest emo", "screamo"]
def T_EMO_HEAVY : List String :=
  ["alternative metal", "nu metal", "post hardcore", "shoegaze metal", "noise rock"]
def T_POP_PUNK : List String := ["pop punk", "pop rock", "emo pop", "warped tour"]
def T_DREAM : List String := ["dream pop", "shoegaze", "slowcore", "ethereal pop"]
def T_AMBIENT : List String := ["space ambient", "soundscape", "drone", "dark ambient"]
def T_COSMIC : List String := ["cosmic", "space", "astral", "celestial"]
def T_LOFI : List String := ["lo fi", "chillwave", "bedroom pop", "lofi beats"]
def T_FOLK : List String := ["indie folk", "folk", "chamber folk"]
def T_COUNTRY_CLASSIC : List String :=
  ["classic country", "outlaw country", "bluegrass", "honky tonk", "country rock"]
def T_COUNTRY_MOD : List String := ["modern country", "country pop", "contemporary country"]
def T_AMERICANA : List String := ["americana", "roots", "traditional folk", "old time", "folk blues"]
def T_JAZZ : List String := ["jazz", "bebop", "swing", "jazz fusion", "bossa nova", "cool jazz"]
def T_LATIN_URBAN : List String :=
  ["reggaeton", "latin trap", "dembow", "perreo", "latin urban", "urbano"]
def T_LATIN_TRAD : List String :=
  ["salsa", "bachata", "cumbia", "merengue", "banda", "regional mexican", "corrido",
   "norteno", "vallenato"]
def T_AFRO : List String := ["afrobeats", "afropop", "afrofusion", "afroswing"]
def T_AFRO_DANCE : List String := ["amapiano", "highlife", "afro house"]
def T_REGGAE : List String := ["reggae", "dub", "ska", "dancehall", "roots reggae"]
def T_KPOP : List String := ["k pop", "korean pop", "korean"]
def T_JPOP : List String := ["j pop", "japanese pop", "city pop"]
def T_HYPERPOP : List String :=
  ["hyperpop", "pc music", "glitch pop", "bubblegum bass", "nightcore", "digicore"]
def T_GLITCH : List String := ["glitch", "breakcore", "idm", "wonky", "deconstructed club"]
def T_BALLAD : List String := ["ballad", "power ballad", "big vocal", "diva", "belting"]
def T_HAPPY : List String := ["happy", "feel good", "joyful", "upbeat"]
def T_SAD : List String := ["sad", "melancholic", "heartbreak"]
def T_CHILL : List String := ["chill", "relaxing", "mellow", "calm", "peaceful"]
def T_AGGRESSIVE : List String := ["aggressive", "hard", "intense"]
def T_MORNING : List String := ["early morning", "morning", "dawn", "sunrise"]
def T_NIGHT : List String := ["late night", "midnight", "night"]
def T_SUMMER : List String := ["summer", "beach", "coastal", "sunny", "vacation"]
def T_STUDY : List String := ["study", "focus", "meditation", "concentration"]
def T_CINEMATIC : List String := ["cinematic", "soundtrack", "score", "immersive", "headphones"]
def T_LIVE : List String := ["live", "concert", "bootleg"]
def T_FESTIVAL : List String := ["festival", "arena", "stadium"]

/-- One vibe's signal definition: four evidence tiers plus descriptor chips. -/
structure VibeSignal where
  core : List String
  broad : List String := []
  boost : List String := []
  anti : List String := []
  descriptors : List String

/-- `VIBE_SIGNALS`, in the declaration order of the source object literal
(the iteration order of `Object.entries` / the normalized-signal `Map`). -/
def VIBE_SIGNALS : List (String × VibeSignal) := [
  ("Star Fishing",
   { core := T_COSMIC ++ T_AMBIENT ++ ["space rock", "post rock"],
     broad := ["ambient", "atmospheric", "ethereal"],
     boost := ["transcendental", "expansive", "psychedelic"],
     anti := T_STUDY ++ ["chill", "relaxing"],
     descriptors := ["ethereal", "expansive", "floating", "spacious", "shimmering",
       "cinematic", "hypnotic"] }),
  ("Velvet Haze",
   { core := T_DREAM ++ ["slowdive", "cocteau twins"],
     broad := ["indie", "dreamy"],
     boost := ["hazy", "reverb", "lush"],
     anti := ["metal", "aggressive", "trap", "drill"],
     descriptors := ["dreamy", "hazy", "shimmering", "floating", "lush", "introspective"] }),
  ("Mind Palace",
   { core := ["art pop", "chamber pop", "indietronica", "art rock"],
     broad := ["introspective", "experimental"],
     boost := ["cerebral", "minimal", "clean"],
     anti := ["party", "banger", "anthem", "mosh"],
     descriptors := ["introspective", "spacious", "crafted", "cinematic", "layered",
       "crystalline"] }),
  ("Cloud Nine",
   { core := T_HAPPY ++ ["bubblegum pop"],
     broad := ["pop", "uplifting"],
     boost := ["bright", "sunny", "dance"],
     anti := ["dark", "sad", "melancholic", "aggressive"],
     descriptors := ["uplifting", "bright", "euphoric", "sunny", "playful", "instant-hit"] }),
  ("Golden Hour",
   { core := ["golden hour", "sunset", "cinematic pop"],
     broad := ["warm", "nostalgic", "cinematic"],
     boost := ["romantic", "dreamy", "bittersweet"],
     anti := ["aggressive", "hard", "dark", "trap"],
     descriptors := ["golden-hour", "nostalgic", "cinematic", "warm", "bittersweet",
       "romantic"] }),
  ("Sunday Morning",
   { core := ["sunday morning", "coffee shop", "acoustic chill"],
     broad := ["peaceful", "gentle"] ++ T_MORNING,
     boost := ["acoustic", "warm", "light"],
     anti := ["aggressive", "loud", "metal", "trap", "party"],
     descriptors := ["peaceful", "early-morning", "coffee-shop", "gentle", "warm",
       "hopeful"] }),
  ("Festival Buzz",
   { core := T_FESTIVAL ++ ["big chorus"] ++ T_EDM,
     broad := ["anthem", "edm"],
     boost := T_LIVE ++ ["crowd", "drop"],
     anti := ["acoustic", "mellow", "lo fi", "folk"],
     descriptors := ["anthemic", "crowd-pleaser", "explosive", "building", "festival",
       "euphoric"] }),
  ("Crowd Control",
   { core := T_HOUSE,
     broad := ["electronic", "club"],
     boost := ["groove", "pulsing", "4 on the floor"],
     anti := ["rock", "metal", "acoustic", "folk"],
     descriptors := ["groove-locked", "pulsing", "kinetic", "late-night", "beat-driven",
       "hypnotic"] }),
  ("Club Catalyst",
   { core := ["banger", "throwback", "2000s party", "electro house"],
     broad := ["edm", "dance", "party"],
     boost := ["anthem", "crowd", "hype", "sing along", "main stage"],
     anti := ["chill", "acoustic", "folk", "study"],
     descriptors := ["crowd-pleaser", "instant-hit", "explosive", "anthem", "party-starter",
       "earworm"] }),
  ("Feel The Bass",
   { core := T_BASS,
     broad := ["bass", "electronic"],
     boost := ["heavy", "sub", "wobble", "filthy"],
     anti := ["acoustic", "folk", "jazz", "chill"],
     descriptors := ["bass-heavy", "sub-rattling", "explosive", "kinetic", "gritty",
       "relentless"] }),
  ("Rhythm Therapy",
   { core := T_FUNK_MODERN ++ ["dance pop"],
     broad := ["dance", "funk", "electronic"],
     boost := ["groove", "joyful", "movement"],
     anti := ["sad", "dark", "aggressive", "metal"],
     descriptors := ["groove-locked", "kinetic", "pulsing", "uplifting", "dynamic",
       "party-starter"] }),
  ("Heat Check",
   { core := T_TRAP,
     broad := T_AGGRESSIVE,
     boost := ["bass", "808", "dark"],
     anti := ["melodic", "chill", "mellow", "acoustic"],
     descriptors := ["bass-heavy", "dark", "sharp", "relentless", "explosive",
       "sub-rattling"] }),
  ("Bar for Bar",
   { core := ["party rap", "hype", "bounce", "crunk", "club rap"],
     broad := T_RAP,
     boost := ["party", "energy", "bass", "car"],
     anti := ["chill", "mellow", "acoustic", "sad"],
     descriptors := ["beat-driven", "kinetic", "party-starter", "explosive", "bass-heavy",
       "crowd-pleaser"] }),
  ("Afterparty",
   { core := T_RAP_MELODIC ++ ["alternative r&b", "moody r&b"],
     broad := ["r&b", "chill"],
     boost := T_NIGHT ++ ["moody", "3am"],
     anti := T_MORNING ++ ["happy", "upbeat"] ++ T_AGGRESSIVE,
     descriptors := ["late-night", "moody", "intimate", "romantic", "hazy", "smooth"] }),
  ("Color Theory",
   { core := T_RAP_ALT,
     broad := ["hip hop"],
     boost := ["experimental", "creative", "unconventional"],
     anti := ["mainstream", "country", "folk"],
     descriptors := ["experimental", "dynamic", "playful", "crossover", "genre-fluid",
       "futuristic"] }),
  ("Soul Kitchen",
   { core := T_SOUL ++ ["neo soul"],
     broad := ["r&b", "warm"],
     boost := ["vocal", "tender", "intimate", "gospel"],
     anti := ["trap", "drill", "electronic", "metal"],
     descriptors := ["warm", "tender", "vocal-forward", "intimate", "organic", "simmering"] }),
  ("Low-Light Groovy",
   { core := T_SLOW_RNB ++ ["quiet storm"],
     broad := ["funk", "groove", "r&b"],
     boost := T_NIGHT ++ ["city", "bassline"],
     anti := T_MORNING ++ ["acoustic", "rock", "metal"],
     descriptors := ["groove-locked", "warm", "swaying", "late-night", "lush", "moody"] }),
  ("Soul Train",
   { core := T_FUNK_CLASSIC ++ ["classic soul"],
     broad := ["funk", "retro", "70s"],
     boost := ["dance", "groove", "party"],
     anti := ["metal", "punk", "sad", "melancholic"],
     descriptors := ["groove-locked", "retro", "party-starter", "warm", "uplifting",
       "timeless"] }),
  ("Speakeasy",
   { core := T_JAZZ ++ ["lounge"],
     broad := ["smooth jazz"],
     boost := ["smoky", "intimate", "cocktail"],
     anti := ["electronic", "metal", "punk", "trap"],
     descriptors := ["smoky", "intimate", "organic", "instrumental-led", "timeless",
       "warm"] }),
  ("Tumblr Core",
   { core := T_EMO ++ ["emo pop", "sad indie"],
     broad := ["sad", "indie"],
     boost := ["emotional", "bedroom", "vulnerable"],
     anti := ["happy", "upbeat", "country", "jazz"],
     descriptors := ["cathartic", "yearning", "bittersweet", "raw", "introspective",
       "moody"] }),
  ("White Noise",
   { core := T_EMO_HEAVY ++ ["grungegaze"],
     broad := ["heavy", "distorted"],
     boost := ["dark", "atmospheric", "wall of sound"],
     anti := ["pop", "happy", "acoustic", "jazz"],
     descriptors := ["haunting", "dark", "gritty", "layered", "relentless",
       "claustrophobic"] }),
  ("Indie Wanderlust",
   { core := T_INDIE ++ ["indie anthem"],
     broad := ["indie", "alternative"],
     boost := ["road trip", "open road", "carefree"],
     anti := ["metal", "trap", "electronic", "edm"],
     descriptors := ["indie-coded", "driving", "uplifting", "crafted", "road-trip",
       "effortless"] }),
  ("Garage Grunge",
   { core := T_ROCK_ALT,
     broad := ["punk", "alternative"],
     boost := ["raw", "distorted", "loud", "2000s"],
     anti := ["chill", "r&b", "jazz", "electronic"],
     descriptors := ["raw", "gritty", "rebellious", "kinetic", "defiant", "driving"] }),
  ("Indie Sleaze",
   { core := T_INDIE_SLEAZE,
     broad := ["indie", "party"],
     boost := ["messy", "chaotic", "ironic", "2000s"],
     anti := ["folk", "country", "acoustic", "chill"],
     descriptors := ["retro", "maximal", "party-starter", "gritty", "dynamic",
       "rebellious"] }),
  ("Lo-Fi Nostalgia",
   { core := T_LOFI,
     broad := ["indie", "chill"],
     boost := ["nostalgic", "hazy", "tape", "warm"],
     anti := ["metal", "loud", "aggressive", "hard"],
     descriptors := ["lo-fi", "nostalgic", "hazy", "warm", "bedroom", "intimate"] }),
  ("Fireplace Folk",
   { core := T_FOLK,
     broad := ["acoustic", "singer songwriter"],
     boost := ["cozy", "intimate", "campfire", "warm"],
     anti := ["electronic", "metal", "punk", "trap"],
     descriptors := ["acoustic", "warm", "intimate", "organic", "peaceful", "gentle"] }),
  ("Honey Glow",
   { core := T_COUNTRY_MOD,
     broad := ["country"],
     boost := ["sweet", "sunny", "warm"],
     anti := ["outlaw", "dark", "hard", "metal"],
     descriptors := ["warm", "sunny", "bright", "acoustic", "gentle", "earworm"] }),
  ("Saddle Up",
   { core := T_COUNTRY_CLASSIC,
     broad := ["country"],
     boost := ["road trip", "driving", "sing along"],
     anti := ["pop", "electronic", "edm"],
     descriptors := ["countryside", "timeless", "authentic", "road-trip", "driving",
       "storytelling"] }),
  ("Vintage Warmth",
   { core := T_AMERICANA ++ ["delta blues", "chicago blues", "blues"],
     broad := ["classic", "retro", "traditional"],
     boost := ["analog", "vinyl", "timeless"],
     anti := ["electronic", "modern", "edm", "trap"],
     descriptors := ["timeless", "retro", "authentic", "warm", "nostalgic", "raw"] }),
  ("Scenic Route",
   { core := ["road trip", "back roads", "alt country", "folk rock"],
     broad := ["americana", "country", "folk", "acoustic"],
     boost := ["countryside", "rural", "open road", "wandering"],
     anti := ["club", "electronic", "trap", "urban"],
     descriptors := ["road-trip", "countryside", "expansive", "authentic", "wistful",
       "driving"] }),
  ("Sunrise Drive",
   { core := T_MORNING ++ ["commute"],
     broad := ["driving", "indie"],
     boost := ["peaceful", "hopeful", "gentle", "moving"],
     anti := ["dark", "aggressive", "night", "late night"],
     descriptors := ["early-morning", "commute", "peaceful", "driving", "hopeful",
       "gentle"] }),
  ("Windows Down",
   { core := T_SUMMER ++ ["surf rock"],
     broad := ["pop", "rock"],
     boost := ["driving", "road trip", "windows down", "golden"],
     anti := ["dark", "sad", "melancholic", "winter"],
     descriptors := ["sunny", "coastal", "road-trip", "uplifting", "bright", "driving"] }),
  ("Hammock Mode",
   { core := T_CHILL,
     broad := ["ambient", "acoustic"],
     boost := ["breeze", "lazy", "sunday", "warm"],
     anti := ["aggressive", "loud", "metal", "trap", "party"],
     descriptors := ["peaceful", "gentle", "floating", "wind-down", "warm", "effortless"] }),
  ("Under A Palm Tree",
   { core := T_REGGAE,
     broad := ["tropical", "island"],
     boost := ["sunny", "warm", "beach"],
     anti := ["metal", "punk", "trap"],
     descriptors := ["sunny", "warm", "swaying", "groove-locked", "coastal",
       "effortless"] }),
  ("Rainy Day Replay",
   { core := ["rainy day", "rain"] ++ T_SAD,
     broad := ["sad", "ballad"],
     boost := ["piano", "acoustic", "soft", "solo"],
     anti := ["happy", "party", "upbeat", "summer"],
     descriptors := ["rainy-day", "melancholic", "bittersweet", "introspective",
       "wind-down", "tender"] }),
  ("Zen Garden",
   { core := T_STUDY ++ ["lofi beats"],
     broad := ["instrumental", "ambient"],
     boost := ["minimal", "peaceful", "zen"],
     anti := ["vocal", "loud", "aggressive", "party"],
     descriptors := ["study-session", "minimal", "hypnotic", "spacious", "peaceful",
       "lo-fi"] }),
  ("Do Not Disturb",
   { core := T_CINEMATIC ++ ["post rock"],
     broad := ["atmospheric", "instrumental"],
     boost := ["epic", "intense", "powerful", "deep"],
     anti := ["pop", "party", "dance", "upbeat"],
     descriptors := ["cinematic", "spacious", "introspective", "expansive", "haunting",
       "layered"] }),
  ("Full Throttle",
   { core := T_METAL,
     broad := ["metal", "hardcore"],
     boost := ["power", "speed", "intense"],
     anti := ["chill", "acoustic", "jazz", "pop"],
     descriptors := ["relentless", "explosive", "defiant", "dark", "driving", "raw"] }),
  ("Mosh Pit Magic",
   { core := T_METAL_CORE ++ ["mosh", "breakdown"],
     broad := ["hardcore", "punk"],
     boost := ["pit", "crowd", "chaos"],
     anti := ["chill", "mellow", "acoustic", "jazz"],
     descriptors := ["cathartic", "explosive", "relentless", "defiant", "kinetic", "raw"] }),
  ("Dad Rock",
   { core := T_ROCK_CLASSIC,
     broad := ["rock"],
     boost := ["guitar solo", "anthem", "stadium"],
     anti := ["trap", "electronic", "edm", "lo fi"],
     descriptors := ["timeless", "anthemic", "driving", "retro", "crowd-pleaser",
       "warm"] }),
  ("Heart on Sleeve",
   { core := T_BALLAD ++ ["breakup anthem", "pop ballad"],
     broad := ["pop", "anthem"],
     boost := ["emotional", "dramatic", "vocal", "sing along"],
     anti := ["instrumental", "minimal", "lo fi", "ambient"],
     descriptors := ["anthemic", "vocal-forward", "cathartic", "romantic", "uplifting",
       "euphoric"] }),
  ("Side B",
   { core := T_POP_PUNK,
     broad := ["sing along", "rock anthem", "2000s"],
     boost := ["nostalgic", "anthemic", "car", "youth"],
     anti := ["jazz", "classical", "ambient", "chill"],
     descriptors := ["anthemic", "nostalgic", "cathartic", "crowd-pleaser", "driving",
       "earworm"] }),
  ("Pulso",
   { core := T_LATIN_URBAN ++ T_LATIN_TRAD,
     broad := ["latin", "latin pop"],
     boost := ["fiesta", "bass", "perreo"],
     anti := ["folk", "country", "acoustic", "jazz"],
     descriptors := ["pulsing", "kinetic", "party-starter", "bass-heavy", "beat-driven",
       "crowd-pleaser"] }),
  ("Palmwine Nights",
   { core := T_AFRO ++ T_AFRO_DANCE,
     broad := ["nigerian", "ghanaian", "south african", "african"],
     boost := ["groove", "warm", "night", "melodic"],
     anti := ["metal", "punk", "country", "folk"],
     descriptors := ["groove-locked", "warm", "sunny", "swaying", "melody-first",
       "effortless"] }),
  ("Pixelated Pop",
   { core := T_HYPERPOP ++ T_GLITCH ++ ["deconstructed"],
     broad := ["glitch", "electronic"],
     boost := ["digital", "chaotic", "warped", "futuristic"],
     anti := ["acoustic", "folk", "country", "jazz"],
     descriptors := ["synthetic", "maximal", "playful", "futuristic", "bright",
       "experimental"] }),
  ("Electric Daydream",
   { core := T_SYNTH ++ ["darkwave"],
     broad := ["synth", "electronic", "new wave"],
     boost := ["cinematic", "driving", "neon", "city"],
     anti := ["acoustic", "folk", "country"],
     descriptors := ["synthetic", "cinematic", "dreamy", "shimmering", "driving",
       "retro"] }),
  ("In Sync",
   { core := T_KPOP,
     broad := T_JPOP,
     boost := ["choreography", "polished", "idol", "visual"],
     anti := ["folk", "country", "jazz", "metal"],
     descriptors := ["polished", "earworm", "bright", "kinetic", "maximal", "crisp"] }),
  ("Unclassified (Vibe TBD)",
   { core := [],
     descriptors := ["brain-scratch", "repeatable", "late-night"] }) ]

/-! ## The vibe classifier (`deriveVibeProfile`) -/

/-- A vibe signal with every tier tag normalized (`buildNormalizedSignals`).
The source stores the tiers as `Set`s; only membership is ever used, so
lists are a faithful model. -/
structure NormalizedSignal where
  core : List String
  broad : List String
  boost : List String
  anti : List String
  descriptors : List String

def normalizeSignal (s : VibeSignal) : NormalizedSignal :=
  { core := s.core.map normalizeTag
    broad := s.broad.map normalizeTag
    boost := s.boost.map normalizeTag
    anti := s.anti.map normalizeTag
    descriptors := s.descriptors }

def NORMALIZED_SIGNALS : List (String × NormalizedSignal) :=
  VIBE_SIGNALS.map (fun p => (p.1, normalizeSignal p.2))

def CORE_W : ℚ := 3
def BROAD_W : ℚ := 1
def BOOST_W : ℚ := 1.5
def ANTI_W : ℚ := -2

/-- Hit counters accumulated by the per-vibe scoring loop. -/
structure VibeCounts where
  coreHits : Nat
  broadHits : Nat
  boostHits : Nat
  antiHits : Nat

/-- How many of the (de-duplicated) input tags belong to one tier set. -/
def countHits (tagArr : List String) (s : List String) : Nat :=
  (tagArr.filter (fun t => t ∈ s)).length

def signalCounts (tagArr : List String) (sig : NormalizedSignal) : VibeCounts :=
  { coreHits := countHits tagArr sig.core
    broadHits := countHits tagArr sig.broad
    boostHits := countHits tagArr sig.boost
    antiHits := countHits tagArr sig.anti }

/-- The tiered evidence score: boost hits count only with base evidence. -/
def vibeScoreOfCounts (c : VibeCounts) : ℚ :=
  c.coreHits * CORE_W + c.broadHits * BROAD_W +
  (if c.coreHits > 0 ∨ c.broadHits > 0 then c.boostHits * BOOST_W else 0) +
  c.antiHits * ANTI_W

/-- One entry of the `vibeScores` / `vibeCoreCounts` records. -/
structure ScoredVibe where
  name : String
  score : ℚ
  coreHits : Nat
  deriving DecidableEq

/-- The scoring loop body: the sentinel is never scored, and a vibe is
recorded only when its score is strictly positive. -/
def scoreVibeEntry (tagArr : List String) (p : String × NormalizedSignal) :
    Option ScoredVibe :=
  if p.1 = "Unclassified (Vibe TBD)" then none
  else
    let c := signalCounts tagArr p.2
    let score := vibeScoreOfCounts c
    if score > 0 then some ⟨p.1, score, c.coreHits⟩ else none

/-- The matched vibes in signal-declaration order — the entries of the
`vibeScores` record in insertion order. -/
def matchedVibes (tagArr : List String) : List ScoredVibe :=
  NORMALIZED_SIGNALS.filterMap (scoreVibeEntry tagArr)

/-- Strict lexicographic order on character lists by code point. -/
def strLtList : List Char → List Char → Bool
  | x :: xs, y :: ys =>
    if x.toNat < y.toNat then true
    else if y.toNat < x.toNat then false
    else strLtList xs ys
  | [], [] => false
  | [], _ :: _ => true
  | _ :: _, [] => false

/-- Lexicographic `≤` on strings.  The source breaks ties with
`localeCompare`; on the repository's vibe names the default collation
coincides with code-point order. -/
def strLeB (a b : String) : Bool := !(strLtList b.data a.data)

/-- The sort order of the classifier: descending score, then descending
core hits, then ascending lexicographic vibe name. -/
def VibeBefore (a b : ScoredVibe) : Prop :=
  b.score < a.score ∨
    (a.score = b.score ∧
      (b.coreHits < a.coreHits ∨ (a.coreHits = b.coreHits ∧ strLeB a.name b.name = true)))

instance (a b : ScoredVibe) : Decidable (VibeBefore a b) := by
  unfold VibeBefore
  infer_instance

/-- `sortedVibes`: the matched vibes sorted by the comparator.  The
JavaScript `Array.prototype.sort` is stable and this comparator is a total
order (vibe names are distinct), so every correct sort — here a stable
insertion sort — reproduces it exactly. -/
def rankedVibes (tagArr : List String) : List ScoredVibe :=
  (matchedVibes tagArr).insertionSort VibeBefore

/-- Descriptor list of a vibe (`NORMALIZED_SIGNALS.get(vibe)`). -/
def signalDescriptors (name : String) : List String :=
  ((NORMALIZED_SIGNALS.find? (fun p => p.1 == name)).map (fun p => p.2.descriptors)).getD []

/-- Add one weighted contribution to the `descScores` record, preserving
first-insertion order of keys. -/
def addDescScore : List (String × ℚ) → String → ℚ → List (String × ℚ)
  | [], d, v => [(d, v)]
  | (k, s) :: rest, d, v =>
    if k = d then (k, s + v) :: rest else (k, s) :: addDescScore rest d v

/-- Accumulate one matched vibe's descriptors: position `i` contributes
`score * max 0.5 (1 - i*0.08)`. -/
def addVibeDescriptors (acc : List (String × ℚ)) (score : ℚ) (descs : List String) :
    List (String × ℚ) :=
  descs.enum.foldl (fun a p => addDescScore a p.2 (score * max 0.5 (1 - (p.1 : ℚ) * 0.08))) acc

/-- The `descScores` record, built over the ranked vibes. -/
def descScoresOf (ranked : List ScoredVibe) : List (String × ℚ) :=
  ranked.foldl (fun acc sv => addVibeDescriptors acc sv.score (signalDescriptors sv.name)) []

/-- `(a, b) => b[1] - a[1]`: sort by total descending; ties keep their
first-insertion order under the stable sort. -/
def DescBefore (a b : String × ℚ) : Prop := b.2 ≤ a.2

instance (a b : String × ℚ) : Decidable (DescBefore a b) := by
  unfold DescBefore
  infer_instance

/-- The selection loop: cap at 7, keep only vocabulary descriptors, and
keep only the first descriptor for each 4-character root. -/
def pickDescGo (usedRoots : List String) (count : Nat) :
    List (String × ℚ) → List String
  | [] => []
  | (d, _) :: rest =>
    if count ≥ 7 then []
    else if ¬(d ∈ DESCRIPTORS) then pickDescGo usedRoots count rest
    else
      let root : String := ⟨d.data.take 4⟩
      if root ∈ usedRoots then pickDescGo usedRoots count rest
      else d :: pickDescGo (root :: usedRoots) (count + 1) rest

/-- The classifier output (the `debug` payload of the source mirrors the
intermediate records and is omitted). -/
structure VibeProfile where
  primaryVibeGenre : String
  secondaryVibeGenres : List String
  descriptors : List String
  deriving DecidableEq

/-- `deriveVibeProfile` from `vibe-taxonomy.ts`. -/
def deriveVibeProfile (sourceTags : List String) : VibeProfile :=
  let tagArr := normalizeTags sourceTags
  let ranked := rankedVibes tagArr
  let primary : String :=
    match ranked.head? with
    | some sv => sv.name
    | none => "Unclassified (Vibe TBD)"
  let secondary := ((ranked.drop 1).take 3).map (fun sv => sv.name)
  let sortedDescs :=
    (((descScoresOf ranked).filter (fun p => p.2 > 0)).insertionSort DescBefore)
  let picked := pickDescGo [] 0 sortedDescs
  let descriptors :=
    if picked = [] then ["brain-scratch", "repeatable", "late-night"] else picked
  { primaryVibeGenre := primary
    secondaryVibeGenres := secondary
    descriptors := descriptors }

/-! ## Concrete feature vectors used as witnesses -/

/-- The seed vector of the repository's distance tests. -/
def seedFeaturesA : DistanceFeatures :=
  { danceability := 0.7, energy := 0.8, valence := 0.5, acousticness := 0.3,
    instrumentalness := 0.1, speechiness := 0.1, liveness := 0.2, tempo := 120, loudness := -6 }

/-- A candidate 120 BPM and 34 dB away from `seedFeaturesA`. -/
def candidateFeaturesA : DistanceFeatures :=
  { danceability := 0.7, energy := 0.8, valence := 0.5, acousticness := 0.3,
    instrumentalness := 0.1, speechiness := 0.1, liveness := 0.2, tempo := 240, loudness := -40 }

/-! ## Clamp range lemmas -/

theorem le_clamp (x lo hi : ℚ) (h : lo ≤ hi) : lo ≤ clamp x lo hi :=
  le_min (le_max_right _ _) h

theorem clamp_le (x lo hi : ℚ) : clamp x lo hi ≤ hi := min_le_right _ _

/-- Every field of `estimateFromMatched` lies in its declared range,
whatever the matched profile set is, because of the final clamping pass. -/
theorem estimateFromMatched_ranges (m : List TagProfile) :
    (0 ≤ (estimateFromMatched m).energy ∧ (estimateFromMatched m).energy ≤ 1) ∧
    (0 ≤ (estimateFromMatched m).danceability ∧ (estimateFromMatched m).danceability ≤ 1) ∧
    (0 ≤ (estimateFromMatched m).valence ∧ (estimateFromMatched m).valence ≤ 1) ∧
    (0 ≤ (estimateFromMatched m).acousticness ∧ (estimateFromMatched m).acousticness ≤ 1) ∧
    (0 ≤ (estimateFromMatched m).instrumentalness ∧ (estimateFromMatched m).instrumentalness ≤ 1) ∧
    (0 ≤ (estimateFromMatched m).liveness ∧ (estimateFromMatched m).liveness ≤ 1) ∧
    (0 ≤ (estimateFromMatched m).speechiness ∧ (estimateFromMatched m).speechiness ≤ 1) ∧
    (40 ≤ (estimateFromMatched m).tempo ∧ (estimateFromMatched m).tempo ≤ 220) ∧
    (-60 ≤ (estimateFromMatched m).loudness ∧ (estimateFromMatched m).loudness ≤ 0) := by
  refine ⟨⟨?_, ?_⟩, ⟨?_, ?_⟩, ⟨?_, ?_⟩, ⟨?_, ?_⟩, ⟨?_, ?_⟩, ⟨?_, ?_⟩, ⟨?_, ?_⟩,
    ⟨?_, ?_⟩, ⟨?_, ?_⟩⟩ <;>
    first
      | exact le_clamp _ _ _ (by norm_num)
      | exact clamp_le _ _ _

/-! ## Canonical-string lemmas for the normalizer -/

theorem toNat_ofNat_of_valid {n : Nat} (h : n.isValidChar) : (Char.ofNat n).toNat = n := by
  rw [Char.ofNat, dif_pos h]
  rfl

theorem eq_space_iff (c : Char) : c = ' ' ↔ c.toNat = 0x20 := by
  constructor
  · rintro rfl; rfl
  · intro h
    have h2 : Char.ofNat c.toNat = Char.ofNat 0x20 := by rw [h]
    rwa [Char.ofNat_toNat] at h2

theorem goodChar_spec {c : Char} (h : goodChar c = true) :
    (0x61 ≤ c.toNat ∧ c.toNat ≤ 0x7A) ∨ (0x30 ≤ c.toNat ∧ c.toNat ≤ 0x39) ∨
    c.toNat = 0x5F ∨ c.toNat = 0x26 ∨ c.toNat = 0x20 := by
  simpa [goodChar] using h

theorem jsToLower_of_good {c : Char} (h : goodChar c = true) : jsToLower c = c := by
  have hs := goodChar_spec h
  unfold jsToLower
  split_ifs with h1 h2
  · exfalso
    omega
  · exfalso
    omega
  · rfl

theorem nfdBase_of_good {c : Char} (h : goodChar c = true) : nfdBase c = c := by
  have hs := goodChar_spec h
  unfold nfdBase
  split_ifs with h1 h2 h3 h4 h5 h6 h7 h8
  all_goals first
    | rfl
    | (exfalso; omega)

theorem isCombiningMark_of_good {c : Char} (h : goodChar c = true) :
    isCombiningMark c = false := by
  have hs := goodChar_spec h
  simp only [isCombiningMark, decide_eq_false_iff_not]
  omega

theorem isJsSpace_iff_of_good {c : Char} (h : goodChar c = true) :
    isJsSpace c = true ↔ c = ' ' := by
  have hs := goodChar_spec h
  rw [eq_space_iff]
  simp only [isJsSpace, decide_eq_true_eq]
  omega

theorem replaceKeep_of_good {c : Char} (h : goodChar c = true) :
    (isWordChar c || isJsSpace c || c.toNat == 0x26) = true := by
  have hs := goodChar_spec h
  simp only [Bool.or_eq_true, isWordChar, isJsSpace, decide_eq_true_eq, beq_iff_eq]
  omega

theorem map_eq_self_of_fixed {α : Type} {f : α → α} :
    ∀ {l : List α}, (∀ c ∈ l, f c = c) → l.map f = l
  | [], _ => rfl
  | c :: rest, h => by
    simp only [List.map_cons]
    rw [h c (by simp), map_eq_self_of_fixed (fun d hd => h d (by simp [hd]))]

theorem dropWhile_eq_self_of_head {p : Char → Bool} :
    ∀ {l : List Char}, (∀ c, l.head? = some c → p c = false) → l.dropWhile p = l
  | [], _ => rfl
  | c :: rest, h => by
    rw [List.dropWhile_cons_of_neg]
    simp [h c rfl]

theorem trimWs_eq_self {l : List Char}
    (hh : ∀ c, l.head? = some c → isJsSpace c = false)
    (hl : ∀ c, l.getLast? = some c → isJsSpace c = false) :
    trimWs l = l := by
  unfold trimWs trimEnd
  rw [dropWhile_eq_self_of_head hh]
  rw [dropWhile_eq_self_of_head (by simpa using hl)]
  exact l.reverse_reverse

theorem stripDiacritics_eq_self {l : List Char} (h : ∀ c ∈ l, goodChar c = true) :
    stripDiacritics l = l := by
  unfold stripDiacritics
  rw [map_eq_self_of_fixed (fun c hc => nfdBase_of_good (h c hc))]
  rw [List.filter_eq_self.mpr]
  intro c hc
  simp [isCombiningMark_of_good (h c hc)]

theorem replaceNonWord_eq_self {l : List Char} (h : ∀ c ∈ l, goodChar c = true) :
    replaceNonWord l = l := by
  unfold replaceNonWord
  exact map_eq_self_of_fixed (fun c hc => by rw [if_pos (replaceKeep_of_good (h c hc))])

theorem collapseWsGo_eq_self :
    ∀ {l : List Char}, (∀ c ∈ l, goodChar c = true) → l.Chain' NoTwoSpaces →
      (collapseWsGo false l = l ∧
        ((∀ c, l.head? = some c → c ≠ ' ') → collapseWsGo true l = l))
  | [], _, _ => ⟨rfl, fun _ => rfl⟩
  | c :: rest, hg, hch => by
    have hg' : ∀ d ∈ rest, goodChar d = true := fun d hd => hg d (by simp [hd])
    have hch' := (List.chain'_cons'.mp hch).2
    have hhd := (List.chain'_cons'.mp hch).1
    have ih := collapseWsGo_eq_self hg' hch'
    by_cases hsp : isJsSpace c = true
    · have hc : c = ' ' := (isJsSpace_iff_of_good (hg c (by simp))).mp hsp
      constructor
      · show collapseWsGo false (c :: rest) = c :: rest
        unfold collapseWsGo
        rw [if_pos hsp, if_neg (by simp)]
        have : collapseWsGo true rest = rest := by
          refine ih.2 (fun d hd => ?_)
          have : d ∈ rest.head? := by rw [hd]; rfl
          have := hhd d this
          subst hc
          intro hd'
          exact this ⟨rfl, hd'⟩
        rw [this, hc]
      · intro hhead
        exact absurd hc (hhead c rfl)
    · have hrec : collapseWsGo false rest = rest := ih.1
      constructor
      · show collapseWsGo false (c :: rest) = c :: rest
        unfold collapseWsGo
        rw [if_neg (by simp [hsp]), hrec]
      · intro _
        show collapseWsGo true (c :: rest) = c :: rest
        unfold collapseWsGo
        rw [if_neg (by simp [hsp]), hrec]

/-- `normalizeChars` is the identity on canonical lists. -/
theorem normalizeChars_eq_self {l : List Char} (h : Canonical l) : normalizeChars l = l := by
  have hspace_head : ∀ c, l.head? = some c → isJsSpace c = false := by
    intro c hc
    have hcl : c ∈ l := List.mem_of_mem_head? (by rw [hc]; rfl)
    have := h.head c hc
    rcases hb : isJsSpace c with _ | _
    · rfl
    · exact absurd ((isJsSpace_iff_of_good (h.good c hcl)).mp hb) this
  have hspace_last : ∀ c, l.getLast? = some c → isJsSpace c = false := by
    intro c hc
    have hcl : c ∈ l := by
      have := List.getLast?_eq_head?_reverse.symm.trans hc
      have h2 : c ∈ l.reverse := List.mem_of_mem_head? (by rw [this]; rfl)
      simpa using h2
    have := h.last c hc
    rcases hb : isJsSpace c with _ | _
    · rfl
    · exact absurd ((isJsSpace_iff_of_good (h.good c hcl)).mp hb) this
  unfold normalizeChars
  rw [map_eq_self_of_fixed (fun c hc => jsToLower_of_good (h.good c hc))]
  rw [trimWs_eq_self hspace_head hspace_last]
  rw [stripDiacritics_eq_self h.good]
  rw [replaceNonWord_eq_self h.good]
  rw [show collapseWs l = l from (collapseWsGo_eq_self h.good h.chain).1]
  rw [trimWs_eq_self hspace_head hspace_last]

theorem jsToLower_not_upper (c : Char) :
    ¬(0x41 ≤ (jsToLower c).toNat ∧ (jsToLower c).toNat ≤ 0x5A) := by
  unfold jsToLower
  by_cases h1 : 0x41 ≤ c.toNat ∧ c.toNat ≤ 0x5A
  · rw [if_pos h1, toNat_ofNat_of_valid (Or.inl (by omega))]
    omega
  · rw [if_neg h1]
    by_cases h2 : 0xC0 ≤ c.toNat ∧ c.toNat ≤ 0xDE ∧ c.toNat ≠ 0xD7
    · rw [if_pos h2, toNat_ofNat_of_valid (Or.inl (by omega))]
      omega
    · rw [if_neg h2]
      omega

theorem nfdBase_not_upper {c : Char} (h : ¬(0x41 ≤ c.toNat ∧ c.toNat ≤ 0x5A)) :
    ¬(0x41 ≤ (nfdBase c).toNat ∧ (nfdBase c).toNat ≤ 0x5A) := by
  unfold nfdBase
  split_ifs <;> first | decide | exact h

theorem mem_stripDiacritics {c : Char} {m : List Char} (h : c ∈ stripDiacritics m) :
    ∃ d ∈ m, c = nfdBase d := by
  unfold stripDiacritics at h
  have := List.mem_of_mem_filter h
  obtain ⟨d, hd, hdc⟩ := List.mem_map.mp this
  exact ⟨d, hd, hdc.symm⟩

theorem mem_replaceNonWord {c : Char} {m : List Char} (h : c ∈ replaceNonWord m) :
    c = ' ' ∨ (c ∈ m ∧ (isWordChar c || isJsSpace c || c.toNat == 0x26) = true) := by
  unfold replaceNonWord at h
  obtain ⟨d, hd, hdc⟩ := List.mem_map.mp h
  by_cases hcond : (isWordChar d || isJsSpace d || d.toNat == 0x26) = true
  · rw [if_pos hcond] at hdc
    subst hdc
    exact Or.inr ⟨hd, hcond⟩
  · rw [if_neg hcond] at hdc
    exact Or.inl hdc.symm

theorem mem_collapseWsGo :
    ∀ {l : List Char} {b : Bool} {c : Char}, c ∈ collapseWsGo b l →
      c = ' ' ∨ (c ∈ l ∧ isJsSpace c = false)
  | [], b, c, h => by simp [collapseWsGo] at h
  | d :: rest, b, c, h => by
    unfold collapseWsGo at h
    by_cases hsp : isJsSpace d = true
    · rw [if_pos hsp] at h
      rcases b with _ | _
      · simp only [Bool.false_eq_true, if_false, List.mem_cons] at h
        rcases h with h | h
        · exact Or.inl h
        · rcases mem_collapseWsGo h with h' | ⟨h1, h2⟩
          · exact Or.inl h'
          · exact Or.inr ⟨by simp [h1], h2⟩
      · simp only [if_true] at h
        rcases mem_collapseWsGo h with h' | ⟨h1, h2⟩
        · exact Or.inl h'
        · exact Or.inr ⟨by simp [h1], h2⟩
    · rw [if_neg hsp] at h
      rcases List.mem_cons.mp h with h | h
      · subst h
        exact Or.inr ⟨by simp, by simpa using hsp⟩
      · rcases mem_collapseWsGo h with h' | ⟨h1, h2⟩
        · exact Or.inl h'
        · exact Or.inr ⟨by simp [h1], h2⟩

theorem collapseWsGo_true_head :
    ∀ {l : List Char} {c : Char}, (collapseWsGo true l).head? = some c →
      isJsSpace c = false
  | [], c, h => by simp [collapseWsGo] at h
  | d :: rest, c, h => by
    unfold collapseWsGo at h
    by_cases hsp : isJsSpace d = true
    · rw [if_pos hsp, if_pos rfl] at h
      exact collapseWsGo_true_head h
    · rw [if_neg hsp] at h
      simp only [List.head?_cons, Option.some.injEq] at h
      subst h
      simpa using hsp

theorem collapseWsGo_chain :
    ∀ (l : List Char) (b : Bool), (collapseWsGo b l).Chain' NoTwoSpaces
  | [], _ => by simp [collapseWsGo]
  | d :: rest, b => by
    unfold collapseWsGo
    by_cases hsp : isJsSpace d = true
    · rw [if_pos hsp]
      rcases b with _ | _
      · simp only [Bool.false_eq_true, if_false]
        refine List.chain'_cons'.mpr ⟨?_, collapseWsGo_chain rest true⟩
        intro y hy
        have : isJsSpace y = false := collapseWsGo_true_head (by simpa using hy)
        intro ⟨_, hy'⟩
        rw [hy'] at this
        simp [isJsSpace] at this
      · simp only [if_true]
        exact collapseWsGo_chain rest true
    · rw [if_neg hsp]
      refine List.chain'_cons'.mpr ⟨?_, collapseWsGo_chain rest false⟩
      intro y _
      intro ⟨hd', _⟩
      rw [hd'] at hsp
      simp [isJsSpace] at hsp

theorem trimEnd_isPre (l : List Char) : trimEnd l <+: l := by
  unfold trimEnd
  rw [← List.reverse_suffix]
  simpa using List.dropWhile_suffix (l := l.reverse) isJsSpace

theorem trimWs_isInfix (l : List Char) : trimWs l <:+: l := by
  unfold trimWs
  exact (trimEnd_isPre _).isInfix.trans (List.dropWhile_suffix isJsSpace).isInfix

theorem trimWs_head_not_space (l : List Char) :
    ∀ c, (trimWs l).head? = some c → isJsSpace c = false := by
  intro c hc
  unfold trimWs at hc
  obtain ⟨t, ht⟩ := trimEnd_isPre (l.dropWhile isJsSpace)
  have hcons : ∃ r, trimEnd (l.dropWhile isJsSpace) = c :: r := by
    cases he : trimEnd (l.dropWhile isJsSpace) with
    | nil => rw [he] at hc; simp at hc
    | cons a r =>
      rw [he] at hc
      simp only [List.head?_cons, Option.some.injEq] at hc
      subst hc
      exact ⟨r, rfl⟩
  obtain ⟨r, hr⟩ := hcons
  have hhd : (l.dropWhile isJsSpace).head? = some c := by
    rw [← ht, hr]
    rfl
  have h := List.head?_dropWhile_not isJsSpace l
  rw [hhd] at h
  exact h

theorem trimWs_last_not_space (l : List Char) :
    ∀ c, (trimWs l).getLast? = some c → isJsSpace c = false := by
  intro c hc
  unfold trimWs trimEnd at hc
  rw [List.getLast?_eq_head?_reverse, List.reverse_reverse] at hc
  have h := List.head?_dropWhile_not isJsSpace (l.dropWhile isJsSpace).reverse
  rw [hc] at h
  exact h

theorem normalizeChars_good (l : List Char) :
    ∀ c ∈ normalizeChars l, goodChar c = true := by
  intro c hc
  have hm4 : c ∈ collapseWs (replaceNonWord (stripDiacritics (trimWs (l.map jsToLower)))) :=
    (trimWs_isInfix _).subset hc
  rcases mem_collapseWsGo hm4 with hsp | ⟨hm3, hnsp⟩
  · subst hsp
    decide
  · rcases mem_replaceNonWord hm3 with hsp | ⟨hm2, hcond⟩
    · subst hsp
      decide
    · have hnoUp : ¬(0x41 ≤ c.toNat ∧ c.toNat ≤ 0x5A) := by
        obtain ⟨d, hd, hcd⟩ := mem_stripDiacritics hm2
        have hdl : d ∈ (l.map jsToLower) := (trimWs_isInfix _).subset hd
        obtain ⟨e, _, he⟩ := List.mem_map.mp hdl
        subst hcd
        exact nfdBase_not_upper (he ▸ jsToLower_not_upper e)
      simp only [Bool.or_eq_true, isWordChar, isJsSpace, decide_eq_true_eq,
        beq_iff_eq] at hcond
      simp only [isJsSpace, decide_eq_false_iff_not] at hnsp
      simp only [goodChar, decide_eq_true_eq]
      omega

theorem trimEnd_chain {R : Char → Char → Prop} {m : List Char} (h : m.Chain' R) :
    (trimEnd m).Chain' R := by
  unfold trimEnd
  rw [List.chain'_reverse]
  exact (List.chain'_reverse.mpr h).suffix (List.dropWhile_suffix _)

/-- `normalizeChars` always produces a canonical list. -/
theorem normalizeChars_canonical (l : List Char) : Canonical (normalizeChars l) := by
  refine ⟨normalizeChars_good l, ?_, ?_, ?_⟩
  · exact trimEnd_chain ((collapseWsGo_chain _ false).suffix (List.dropWhile_suffix _))
  · intro c hc hsp
    have := trimWs_head_not_space _ c hc
    rw [hsp] at this
    simp [isJsSpace] at this
  · intro c hc hsp
    have := trimWs_last_not_space _ c hc
    rw [hsp] at this
    simp [isJsSpace] at this

theorem synLookup_mem :
    ∀ {m : List (String × String)} {s v : String}, synLookup m s = some v → (s, v) ∈ m
  | [], s, v, h => by simp [synLookup] at h
  | (k, w) :: rest, s, v, h => by
    unfold synLookup at h
    by_cases hs : s = k
    · rw [if_pos hs] at h
      simp only [Option.some.injEq] at h
      simp [hs, h]
    · rw [if_neg hs] at h
      exact List.mem_cons_of_mem _ (synLookup_mem h)

/-- Every synonym-table value is a fixed point of the character pipeline and
of the synonym substitution itself. -/
theorem synonym_values_fixed :
    ∀ p ∈ SYNONYM_MAP, normalizeChars p.2.data = p.2.data ∧
      (synLookup SYNONYM_MAP p.2).getD p.2 = p.2 := by decide

/-! ## Claim theorems for the deriver, ranker and explainer -/

/-- C9: the vibe tag derivation boundaries behave exactly as specified at the
cutpoints: `deriveEnergyTag 0.35 = "Balanced"` (lower bound inclusive to the
middle bucket), `deriveEnergyTag 0.34999 = "Chill"`,
`deriveVocalTag 0.33 = "Melodic Vocals"` and
`deriveVocalTag 0.331 = "Talky/Rap-Adjacent"`. -/
theorem C9_vibe_tag_boundaries :
    deriveEnergyTag 0.35 = "Balanced" ∧
    deriveEnergyTag 0.34999 = "Chill" ∧
    deriveVocalTag 0.33 = "Melodic Vocals" ∧
    deriveVocalTag 0.331 = "Talky/Rap-Adjacent" := by
  refine ⟨?_, ?_, ?_, ?_⟩
  · unfold deriveEnergyTag
    rw [if_neg (by norm_num [ENERGY_THRESHOLDS_LOW]),
      if_neg (by norm_num [ENERGY_THRESHOLDS_HIGH])]
  · unfold deriveEnergyTag
    rw [if_pos (by norm_num [ENERGY_THRESHOLDS_LOW])]
  · unfold deriveVocalTag
    rw [if_neg (by norm_num [VOCAL_THRESHOLD])]
  · unfold deriveVocalTag
    rw [if_pos (by norm_num [VOCAL_THRESHOLD])]

/-- C6: for every pair of feature vectors, `calculateDistance` reports each
unit-interval dimension's difference as the absolute difference of the two
values, the tempo difference as the absolute BPM difference divided by 60
clamped to at most 1.0, and the loudness difference as the absolute dB
difference divided by 20 clamped to at most 1.0; in particular a 120 BPM
tempo difference yields exactly 1.0 and a 34 dB loudness difference yields
exactly 1.0. -/
theorem C6_calculateDistance_normalization (seed candidate : DistanceFeatures) :
    (calculateDistance seed candidate).dimensionDiffs.danceability
      = |candidate.danceability - seed.danceability| ∧
    (calculateDistance seed candidate).dimensionDiffs.energy
      = |candidate.energy - seed.energy| ∧
    (calculateDistance seed candidate).dimensionDiffs.valence
      = |candidate.valence - seed.valence| ∧
    (calculateDistance seed candidate).dimensionDiffs.acousticness
      = |candidate.acousticness - seed.acousticness| ∧
    (calculateDistance seed candidate).dimensionDiffs.instrumentalness
      = |candidate.instrumentalness - seed.instrumentalness| ∧
    (calculateDistance seed candidate).dimensionDiffs.speechiness
      = |candidate.speechiness - seed.speechiness| ∧
    (calculateDistance seed candidate).dimensionDiffs.liveness
      = |candidate.liveness - seed.liveness| ∧
    (calculateDistance seed candidate).dimensionDiffs.tempo
      = min (|candidate.tempo - seed.tempo| / 60) 1 ∧
    (calculateDistance seed candidate).dimensionDiffs.loudness
      = min (|candidate.loudness - seed.loudness| / 20) 1 ∧
    (|candidate.tempo - seed.tempo| = 120 →
      (calculateDistance seed candidate).dimensionDiffs.tempo = 1) ∧
    (|candidate.loudness - seed.loudness| = 34 →
      (calculateDistance seed candidate).dimensionDiffs.loudness = 1) := by
  refine ⟨rfl, rfl, rfl, rfl, rfl, rfl, rfl, rfl, rfl, ?_, ?_⟩
  · intro h
    show min (|candidate.tempo - seed.tempo| / NORMALIZATION_TEMPO_DIVISOR) 1 = 1
    rw [h]; norm_num [NORMALIZATION_TEMPO_DIVISOR]
  · intro h
    show min (|candidate.loudness - seed.loudness| / NORMALIZATION_LOUDNESS_DIVISOR) 1 = 1
    rw [h]; norm_num [NORMALIZATION_LOUDNESS_DIVISOR]

/-- Witness for C6: at the concrete vectors `seedFeaturesA` and
`candidateFeaturesA` (120 BPM and 34 dB apart) the clamped tempo and loudness
dimension diffs are exactly 1. -/
theorem C6_calculateDistance_normalization_witness :
    (calculateDistance seedFeaturesA candidateFeaturesA).dimensionDiffs.tempo = 1 ∧
    (calculateDistance seedFeaturesA candidateFeaturesA).dimensionDiffs.loudness = 1 := by
  have h := C6_calculateDistance_normalization seedFeaturesA candidateFeaturesA
  exact ⟨h.2.2.2.2.2.2.2.2.2.1 (by norm_num [candidateFeaturesA, seedFeaturesA]),
    h.2.2.2.2.2.2.2.2.2.2 (by norm_num [candidateFeaturesA, seedFeaturesA])⟩

/-- C10: for every input feature record, `generateExplanation` returns a tldr
list of exactly 3 sentences, and the rhythm, harmony_mood and sound_texture
sections each contain between 2 and 4 sentences. -/
theorem C10_generateExplanation_shape (input : ExplanationInput) :
    (generateExplanation input).tldr.length = 3 ∧
    (2 ≤ (generateExplanation input).sections.rhythm.length ∧
      (generateExplanation input).sections.rhythm.length ≤ 4) ∧
    (2 ≤ (generateExplanation input).sections.harmony_mood.length ∧
      (generateExplanation input).sections.harmony_mood.length ≤ 4) ∧
    (2 ≤ (generateExplanation input).sections.sound_texture.length ∧
      (generateExplanation input).sections.sound_texture.length ≤ 4) := by
  refine ⟨rfl, ⟨by norm_num [generateExplanation, getRhythmBullets],
    by norm_num [generateExplanation, getRhythmBullets]⟩, ?_,
    ⟨by norm_num [generateExplanation, getSoundTextureBullets],
      by norm_num [generateExplanation, getSoundTextureBullets]⟩⟩
  by_cases h1 : input.mode = "Major" <;> by_cases h2 : input.mode = "Minor" <;>
    simp [generateExplanation, getHarmonyMoodBullets, h1, h2]

/-- C3: `estimateFeaturesFromTags` applied to the empty tag list returns
exactly the default feature vector, whose fields are tempo 120, key -1,
mode 1, time_signature 4, loudness -8, energy 0.5, danceability 0.5,
valence 0.5, acousticness 0.3, instrumentalness 0.1, liveness 0.15 and
speechiness 0.05. -/
theorem C3_estimate_empty_default :
    estimateFeaturesFromTags [] = DEFAULT_FEATURES ∧
    DEFAULT_FEATURES.tempo = 120 ∧
    DEFAULT_FEATURES.key = -1 ∧
    DEFAULT_FEATURES.mode = 1 ∧
    DEFAULT_FEATURES.time_signature = 4 ∧
    DEFAULT_FEATURES.loudness = -8 ∧
    DEFAULT_FEATURES.energy = 0.5 ∧
    DEFAULT_FEATURES.danceability = 0.5 ∧
    DEFAULT_FEATURES.valence = 0.5 ∧
    DEFAULT_FEATURES.acousticness = 0.3 ∧
    DEFAULT_FEATURES.instrumentalness = 0.1 ∧
    DEFAULT_FEATURES.liveness = 0.15 ∧
    DEFAULT_FEATURES.speechiness = 0.05 :=
  ⟨rfl, rfl, rfl, rfl, rfl, rfl, rfl, rfl, rfl, rfl, rfl, rfl, rfl⟩

/-- C5: for every input tag list, the feature vector returned by
`estimateFeaturesFromTags` satisfies the range invariant: the seven
unit-interval fields lie in [0,1], tempo lies in [40,220] and loudness lies
in [-60,0]. -/
theorem C5_estimate_range_invariant (tags : List String) :
    (0 ≤ (estimateFeaturesFromTags tags).energy ∧ (estimateFeaturesFromTags tags).energy ≤ 1) ∧
    (0 ≤ (estimateFeaturesFromTags tags).danceability ∧
      (estimateFeaturesFromTags tags).danceability ≤ 1) ∧
    (0 ≤ (estimateFeaturesFromTags tags).valence ∧ (estimateFeaturesFromTags tags).valence ≤ 1) ∧
    (0 ≤ (estimateFeaturesFromTags tags).acousticness ∧
      (estimateFeaturesFromTags tags).acousticness ≤ 1) ∧
    (0 ≤ (estimateFeaturesFromTags tags).instrumentalness ∧
      (estimateFeaturesFromTags tags).instrumentalness ≤ 1) ∧
    (0 ≤ (estimateFeaturesFromTags tags).liveness ∧ (estimateFeaturesFromTags tags).liveness ≤ 1) ∧
    (0 ≤ (estimateFeaturesFromTags tags).speechiness ∧
      (estimateFeaturesFromTags tags).speechiness ≤ 1) ∧
    (40 ≤ (estimateFeaturesFromTags tags).tempo ∧ (estimateFeaturesFromTags tags).tempo ≤ 220) ∧
    (-60 ≤ (estimateFeaturesFromTags tags).loudness ∧
      (estimateFeaturesFromTags tags).loudness ≤ 0) := by
  unfold estimateFeaturesFromTags
  by_cases h : tags.length = 0
  · rw [if_pos h]
    norm_num [DEFAULT_FEATURES]
  · rw [if_neg h]
    exact estimateFromMatched_ranges _

/-- C7: tag normalization is idempotent — applying the lowercase/trim,
diacritic stripping, punctuation-to-space, whitespace collapsing and
synonym-table substitution a second time changes nothing:
`normalizeTag (normalizeTag x) = normalizeTag x` for every string `x`. -/
theorem C7_normalizeTag_idempotent (x : String) :
    normalizeTag (normalizeTag x) = normalizeTag x := by
  have hx : normalizeTag x =
      (synLookup SYNONYM_MAP ⟨normalizeChars x.data⟩).getD ⟨normalizeChars x.data⟩ := rfl
  rw [hx]
  cases hl : synLookup SYNONYM_MAP ⟨normalizeChars x.data⟩ with
  | none =>
    simp only [Option.getD_none]
    have h2 : normalizeTag (⟨normalizeChars x.data⟩ : String) =
        (synLookup SYNONYM_MAP ⟨normalizeChars (normalizeChars x.data)⟩).getD
          ⟨normalizeChars (normalizeChars x.data)⟩ := rfl
    rw [h2, normalizeChars_eq_self (normalizeChars_canonical x.data), hl, Option.getD_none]
  | some v =>
    simp only [Option.getD_some]
    have hv := synonym_values_fixed _ (synLookup_mem hl)
    have h2 : normalizeTag v =
        (synLookup SYNONYM_MAP ⟨normalizeChars v.data⟩).getD ⟨normalizeChars v.data⟩ := rfl
    rw [h2, hv.1]
    exact hv.2

/-! ## Order lemmas for the classifier comparator -/

theorem char_toNat_inj {a b : Char} (h : a.toNat = b.toNat) : a = b := by
  have h2 := congrArg Char.ofNat h
  rwa [Char.ofNat_toNat, Char.ofNat_toNat] at h2

theorem strLtList_asymm : ∀ {a b : List Char}, strLtList a b = true → strLtList b a = false
  | [], [], h => by simp [strLtList] at h
  | [], _ :: _, _ => by simp [strLtList]
  | _ :: _, [], h => by simp [strLtList] at h
  | a :: as, b :: bs, h => by
    unfold strLtList at h ⊢
    by_cases h1 : a.toNat < b.toNat
    · rw [if_neg (by omega), if_pos h1]
    · rw [if_neg h1] at h
      by_cases h2 : b.toNat < a.toNat
      · rw [if_pos h2] at h
        exact absurd h (by simp)
      · rw [if_neg h2] at h
        rw [if_neg h2, if_neg h1]
        exact strLtList_asymm h

theorem strLtList_trans :
    ∀ {a b c : List Char}, strLtList a b = true → strLtList b c = true →
      strLtList a c = true
  | [], [], _, h1, _ => by simp [strLtList] at h1
  | [], _ :: _, [], _, h2 => by simp [strLtList] at h2
  | [], _ :: _, _ :: _, _, _ => by simp [strLtList]
  | _ :: _, [], _, h1, _ => by simp [strLtList] at h1
  | _ :: _, _ :: _, [], _, h2 => by simp [strLtList] at h2
  | a :: as, b :: bs, c :: cs, h1, h2 => by
    unfold strLtList at h1 h2 ⊢
    by_cases hab : a.toNat < b.toNat
    · by_cases hbc : b.toNat < c.toNat
      · rw [if_pos (show a.toNat < c.toNat by omega)]
      · rw [if_neg hbc] at h2
        by_cases hcb : c.toNat < b.toNat
        · rw [if_pos hcb] at h2
          exact absurd h2 (by simp)
        · rw [if_pos (show a.toNat < c.toNat by omega)]
    · rw [if_neg hab] at h1
      by_cases hba : b.toNat < a.toNat
      · rw [if_pos hba] at h1
        exact absurd h1 (by simp)
      · rw [if_neg hba] at h1
        by_cases hbc : b.toNat < c.toNat
        · rw [if_pos (show a.toNat < c.toNat by omega)]
        · rw [if_neg hbc] at h2
          by_cases hcb : c.toNat < b.toNat
          · rw [if_pos hcb] at h2
            exact absurd h2 (by simp)
          · rw [if_neg hcb] at h2
            rw [if_neg (show ¬a.toNat < c.toNat by omega),
              if_neg (show ¬c.toNat < a.toNat by omega)]
            exact strLtList_trans h1 h2

theorem strLtList_conn :
    ∀ {a b : List Char}, strLtList a b = false → strLtList b a = false → a = b
  | [], [], _, _ => rfl
  | [], _ :: _, h, _ => by simp [strLtList] at h
  | _ :: _, [], _, h => by simp [strLtList] at h
  | a :: as, b :: bs, h1, h2 => by
    unfold strLtList at h1 h2
    by_cases hab : a.toNat < b.toNat
    · rw [if_pos hab] at h1
      exact absurd h1 (by simp)
    · rw [if_neg hab] at h1
      by_cases hba : b.toNat < a.toNat
      · rw [if_pos hba] at h2
        exact absurd h2 (by simp)
      · rw [if_neg hba] at h1
        rw [if_neg hba, if_neg hab] at h2
        rw [char_toNat_inj (show a.toNat = b.toNat by omega), strLtList_conn h1 h2]

theorem strLeB_total (a b : String) : strLeB a b = true ∨ strLeB b a = true := by
  unfold strLeB
  by_cases h : strLtList b.data a.data = true
  · right
    rw [strLtList_asymm h]
    rfl
  · left
    rw [Bool.not_eq_true] at h
    rw [h]
    rfl

theorem strLeB_trans {a b c : String} (h1 : strLeB a b = true) (h2 : strLeB b c = true) :
    strLeB a c = true := by
  unfold strLeB at h1 h2 ⊢
  rw [Bool.not_eq_eq_eq_not, Bool.not_true] at h1 h2 ⊢
  by_cases hbc : strLtList b.data c.data = true
  · by_cases hca : strLtList c.data a.data = true
    · exact absurd (strLtList_trans hbc hca) (by rw [h1]; simp)
    · rwa [Bool.not_eq_true] at hca
  · rw [Bool.not_eq_true] at hbc
    have hdata : b.data = c.data := strLtList_conn hbc h2
    rw [← hdata]
    exact h1

instance : IsTotal ScoredVibe VibeBefore where
  total a b := by
    unfold VibeBefore
    rcases lt_trichotomy a.score b.score with h | h | h
    · exact Or.inr (Or.inl h)
    · rcases Nat.lt_trichotomy a.coreHits b.coreHits with h2 | h2 | h2
      · exact Or.inr (Or.inr ⟨h.symm, Or.inl h2⟩)
      · rcases strLeB_total a.name b.name with h3 | h3
        · exact Or.inl (Or.inr ⟨h, Or.inr ⟨h2, h3⟩⟩)
        · exact Or.inr (Or.inr ⟨h.symm, Or.inr ⟨h2.symm, h3⟩⟩)
      · exact Or.inl (Or.inr ⟨h, Or.inl h2⟩)
    · exact Or.inl (Or.inl h)

instance : IsTrans ScoredVibe VibeBefore where
  trans a b c hab hbc := by
    unfold VibeBefore at hab hbc ⊢
    rcases hab with h1 | ⟨e1, h1⟩
    · rcases hbc with h2 | ⟨e2, _⟩
      · exact Or.inl (h2.trans h1)
      · exact Or.inl (e2 ▸ h1)
    · rcases hbc with h2 | ⟨e2, h2⟩
      · exact Or.inl (e1 ▸ h2)
      · refine Or.inr ⟨e1.trans e2, ?_⟩
        rcases h1 with hc1 | ⟨ec1, hn1⟩
        · rcases h2 with hc2 | ⟨ec2, _⟩
          · exact Or.inl (hc2.trans hc1)
          · exact Or.inl (ec2 ▸ hc1)
        · rcases h2 with hc2 | ⟨ec2, hn2⟩
          · exact Or.inl (ec1 ▸ hc2)
          · exact Or.inr ⟨ec1.trans ec2, strLeB_trans hn1 hn2⟩

/-! ## Matched vibes: names, order, uniqueness -/

/-- The names recorded by the scoring loop are exactly the non-sentinel
vibes whose score is strictly positive, in signal order. -/
theorem filterMap_score_names (ts : List String) :
    ∀ l : List (String × NormalizedSignal),
      (l.filterMap (scoreVibeEntry ts)).map (fun sv => sv.name) =
        (l.filter (fun p => decide (p.1 ≠ "Unclassified (Vibe TBD)" ∧
          0 < vibeScoreOfCounts (signalCounts ts p.2)))).map (fun p => p.1)
  | [] => rfl
  | p :: rest => by
    by_cases h1 : p.1 = "Unclassified (Vibe TBD)"
    · have hnone : scoreVibeEntry ts p = none := by
        unfold scoreVibeEntry
        rw [if_pos h1]
      rw [List.filterMap_cons, hnone, List.filter_cons, if_neg (by simp [h1])]
      exact filterMap_score_names ts rest
    · by_cases h2 : vibeScoreOfCounts (signalCounts ts p.2) > 0
      · have hsome : scoreVibeEntry ts p =
            some ⟨p.1, vibeScoreOfCounts (signalCounts ts p.2),
              (signalCounts ts p.2).coreHits⟩ := by
          unfold scoreVibeEntry
          rw [if_neg h1, if_pos h2]
        rw [List.filterMap_cons, hsome, List.filter_cons, if_pos (by simp [h1, h2])]
        rw [List.map_cons, List.map_cons, filterMap_score_names ts rest]
      · have hnone : scoreVibeEntry ts p = none := by
          unfold scoreVibeEntry
          rw [if_neg h1, if_neg h2]
        rw [List.filterMap_cons, hnone, List.filter_cons, if_neg (by simp [h1, h2])]
        exact filterMap_score_names ts rest

theorem matchedVibes_names (ts : List String) :
    (matchedVibes ts).map (fun sv => sv.name) =
      (NORMALIZED_SIGNALS.filter (fun p => decide (p.1 ≠ "Unclassified (Vibe TBD)" ∧
        0 < vibeScoreOfCounts (signalCounts ts p.2)))).map (fun p => p.1) :=
  filterMap_score_names ts NORMALIZED_SIGNALS

/-- The 48 vibe names of the signal table are pairwise distinct. -/
theorem NORMALIZED_SIGNALS_names_nodup :
    (NORMALIZED_SIGNALS.map (fun p => p.1)).Nodup := by decide

theorem matchedVibes_names_nodup (ts : List String) :
    ((matchedVibes ts).map (fun sv => sv.name)).Nodup := by
  rw [matchedVibes_names]
  exact ((List.filter_sublist _).map _).nodup NORMALIZED_SIGNALS_names_nodup

theorem rankedVibes_names_perm (ts : List String) :
    ((rankedVibes ts).map (fun sv => sv.name)).Perm
      ((matchedVibes ts).map (fun sv => sv.name)) :=
  (List.perm_insertionSort VibeBefore (matchedVibes ts)).map _

/-- C1: for every input tag list, each vibe-genre except the Unclassified
sentinel is scored `coreHits*3 + broadHits*1 + (boostHits*1.5` when
`coreHits>0` or `broadHits>0`, else `0) + antiHits*(-2)` over the
normalized de-duplicated tag set; exactly the vibes with score > 0 are
matched; matched vibes are ordered by descending score, then descending
coreHits, then ascending lexicographic vibe name; the primary vibe is the
first of this order (or the Unclassified sentinel when no vibe matched)
and the secondary vibes are the entries at ranks 1 through 3 (at most 3,
never including the primary). -/
theorem C1_vibe_scoring_and_ranking (tags : List String) :
    (∀ p ∈ NORMALIZED_SIGNALS,
      vibeScoreOfCounts (signalCounts (normalizeTags tags) p.2) =
        (countHits (normalizeTags tags) p.2.core : ℚ) * 3 +
        (countHits (normalizeTags tags) p.2.broad : ℚ) * 1 +
        (if 0 < countHits (normalizeTags tags) p.2.core ∨
            0 < countHits (normalizeTags tags) p.2.broad
          then (countHits (normalizeTags tags) p.2.boost : ℚ) * 1.5 else 0) +
        (countHits (normalizeTags tags) p.2.anti : ℚ) * (-2)) ∧
    ((matchedVibes (normalizeTags tags)).map (fun sv => sv.name) =
      (NORMALIZED_SIGNALS.filter (fun p => decide (p.1 ≠ "Unclassified (Vibe TBD)" ∧
        0 < vibeScoreOfCounts (signalCounts (normalizeTags tags) p.2)))).map
          (fun p => p.1)) ∧
    (rankedVibes (normalizeTags tags)).Perm (matchedVibes (normalizeTags tags)) ∧
    (rankedVibes (normalizeTags tags)).Pairwise VibeBefore ∧
    (deriveVibeProfile tags).primaryVibeGenre =
      (((rankedVibes (normalizeTags tags)).head?.map (fun sv => sv.name)).getD
        "Unclassified (Vibe TBD)") ∧
    (deriveVibeProfile tags).secondaryVibeGenres =
      (((rankedVibes (normalizeTags tags)).drop 1).take 3).map (fun sv => sv.name) ∧
    (deriveVibeProfile tags).secondaryVibeGenres.length ≤ 3 ∧
    (deriveVibeProfile tags).primaryVibeGenre ∉
      (deriveVibeProfile tags).secondaryVibeGenres := by
  refine ⟨fun p _ => rfl, matchedVibes_names _, List.perm_insertionSort _ _,
    List.sorted_insertionSort _ _, ?_, ?_, ?_, ?_⟩
  · simp only [deriveVibeProfile]
    cases h : (rankedVibes (normalizeTags tags)).head? with
    | none => rfl
    | some sv => rfl
  · simp only [deriveVibeProfile]
  · simp only [deriveVibeProfile]
    calc ((((rankedVibes (normalizeTags tags)).drop 1).take 3).map
          (fun sv => sv.name)).length
        = (((rankedVibes (normalizeTags tags)).drop 1).take 3).length :=
          List.length_map _ _
      _ ≤ 3 := List.length_take_le _ _
  · have hnodup : ((rankedVibes (normalizeTags tags)).map (fun sv => sv.name)).Nodup :=
      (rankedVibes_names_perm _).nodup_iff.mpr (matchedVibes_names_nodup _)
    cases hr : rankedVibes (normalizeTags tags) with
    | nil => simp [deriveVibeProfile, rankedVibes] at hr ⊢; simp [hr]
    | cons x rest =>
      rw [hr] at hnodup
      simp only [List.map_cons, List.nodup_cons] at hnodup
      simp only [deriveVibeProfile, rankedVibes] at hr ⊢
      rw [hr]
      simp only [List.head?_cons, List.drop_succ_cons, List.drop_zero]
      intro hmem
      have : x.name ∈ rest.map (fun sv => sv.name) := by
        have := List.take_subset 3 (rest.map (fun sv => sv.name))
        rw [← List.map_take] at this
        exact this hmem
      exact hnodup.1 this

/-- C4: `deriveVibeProfile` never fails — whenever no vibe is matched it
returns the Unclassified sentinel as primary, no secondary vibes, and
exactly the fixed fallback descriptor triple
`["brain-scratch", "repeatable", "late-night"]`. -/
theorem C4_classifier_totality (tags : List String)
    (h : matchedVibes (normalizeTags tags) = []) :
    deriveVibeProfile tags =
      { primaryVibeGenre := "Unclassified (Vibe TBD)"
        secondaryVibeGenres := []
        descriptors := ["brain-scratch", "repeatable", "late-night"] } := by
  have hr : rankedVibes (normalizeTags tags) = [] := by
    unfold rankedVibes
    rw [h]
    rfl
  simp only [deriveVibeProfile, hr]
  rfl

unseal Rat.add Rat.mul Rat.inv Rat.sub Rat.ofScientific in
/-- Witness for C4: the empty tag list matches no vibe, and the profile for
it is the sentinel with the fallback triple. -/
theorem C4_classifier_totality_witness :
    matchedVibes (normalizeTags []) = [] ∧
    deriveVibeProfile [] =
      { primaryVibeGenre := "Unclassified (Vibe TBD)"
        secondaryVibeGenres := []
        descriptors := ["brain-scratch", "repeatable", "late-night"] } := by
  have h0 : matchedVibes (normalizeTags []) = [] := by decide
  exact ⟨h0, C4_classifier_totality [] h0⟩

set_option maxHeartbeats 4000000 in
unseal Rat.add Rat.mul Rat.inv Rat.sub Rat.ofScientific in
/-- C8: `deriveVibeProfile` applied to the tag list
`["trap", "drill", "aggressive", "hip hop"]` returns "Heat Check" as the
primary vibe-genre. -/
theorem C8_heat_check_scenario :
    (deriveVibeProfile ["trap", "drill", "aggressive", "hip hop"]).primaryVibeGenre =
      "Heat Check" := by decide

/-! ## Set-determinism lemmas -/

theorem mem_dedupKeepFirstAux :
    ∀ {l : List String} {seen : List String} {x : String},
      x ∈ dedupKeepFirstAux seen l ↔ (x ∈ l ∧ x ∉ seen)
  | [], seen, x => by simp [dedupKeepFirstAux]
  | y :: ys, seen, x => by
    unfold dedupKeepFirstAux
    by_cases hy : y ∈ seen
    · rw [if_pos hy, mem_dedupKeepFirstAux]
      simp only [List.mem_cons]
      constructor
      · rintro ⟨h1, h2⟩
        exact ⟨Or.inr h1, h2⟩
      · rintro ⟨h1 | h1, h2⟩
        · exact absurd (h1 ▸ hy) h2
        · exact ⟨h1, h2⟩
    · rw [if_neg hy]
      simp only [List.mem_cons, mem_dedupKeepFirstAux]
      constructor
      · rintro (rfl | ⟨h1, h2⟩)
        · exact ⟨Or.inl rfl, hy⟩
        · exact ⟨Or.inr h1, fun hx => h2 (by simp [hx])⟩
      · rintro ⟨rfl | h1, h2⟩
        · exact Or.inl rfl
        · by_cases hxy : x = y
          · exact Or.inl hxy
          · exact Or.inr ⟨h1, by simp [h2, hxy]⟩

theorem nodup_dedupKeepFirstAux :
    ∀ {l : List String} {seen : List String}, (dedupKeepFirstAux seen l).Nodup
  | [], _ => List.nodup_nil
  | y :: ys, seen => by
    unfold dedupKeepFirstAux
    by_cases hy : y ∈ seen
    · rw [if_pos hy]
      exact nodup_dedupKeepFirstAux
    · rw [if_neg hy]
      refine List.nodup_cons.mpr ⟨?_, nodup_dedupKeepFirstAux⟩
      rw [mem_dedupKeepFirstAux]
      simp

theorem mem_normalizeTags {tags : List String} {x : String} :
    x ∈ normalizeTags tags ↔ ((∃ t ∈ tags, normalizeTag t = x) ∧ x ≠ "") := by
  unfold normalizeTags dedupKeepFirst
  rw [mem_dedupKeepFirstAux]
  simp [List.mem_filter, List.mem_map]

theorem normalizeTags_nodup (tags : List String) : (normalizeTags tags).Nodup :=
  nodup_dedupKeepFirstAux

theorem normalizeTags_perm {l1 l2 : List String} (h : ∀ t, t ∈ l1 ↔ t ∈ l2) :
    (normalizeTags l1).Perm (normalizeTags l2) := by
  rw [List.perm_ext_iff_of_nodup (normalizeTags_nodup l1) (normalizeTags_nodup l2)]
  intro x
  rw [mem_normalizeTags, mem_normalizeTags]
  constructor
  · rintro ⟨⟨t, ht, rfl⟩, hne⟩
    exact ⟨⟨t, (h t).mp ht, rfl⟩, hne⟩
  · rintro ⟨⟨t, ht, rfl⟩, hne⟩
    exact ⟨⟨t, (h t).mpr ht, rfl⟩, hne⟩

theorem countHits_perm {t1 t2 : List String} (h : t1.Perm t2) (s : List String) :
    countHits t1 s = countHits t2 s :=
  (h.filter _).length_eq

theorem matchedVibes_eq_of_perm {t1 t2 : List String} (h : t1.Perm t2) :
    matchedVibes t1 = matchedVibes t2 := by
  unfold matchedVibes
  have hf : scoreVibeEntry t1 = scoreVibeEntry t2 := by
    funext p
    unfold scoreVibeEntry signalCounts
    rw [countHits_perm h, countHits_perm h, countHits_perm h, countHits_perm h]
  rw [hf]

theorem mem_map_iff_of_mem_iff {α β : Type} {l1 l2 : List α} {f : α → β}
    (h : ∀ t, t ∈ l1 ↔ t ∈ l2) : ∀ x, x ∈ l1.map f ↔ x ∈ l2.map f := by
  intro x
  simp only [List.mem_map]
  constructor
  · rintro ⟨t, ht, rfl⟩
    exact ⟨t, (h t).mp ht, rfl⟩
  · rintro ⟨t, ht, rfl⟩
    exact ⟨t, (h t).mpr ht, rfl⟩

theorem any_eq_of_mem_iff {α : Type} {l1 l2 : List α} (h : ∀ x, x ∈ l1 ↔ x ∈ l2)
    (p : α → Bool) : l1.any p = l2.any p := by
  rw [Bool.eq_iff_iff]
  simp only [List.any_eq_true]
  constructor
  · rintro ⟨x, hx, hp⟩
    exact ⟨x, (h x).mp hx, hp⟩
  · rintro ⟨x, hx, hp⟩
    exact ⟨x, (h x).mpr hx, hp⟩

theorem profileMatches_eq_of_mem_iff {l1 l2 : List String}
    (h : ∀ t, t ∈ l1 ↔ t ∈ l2) :
    profileMatches (l1.map jsToLowerStr) = profileMatches (l2.map jsToLowerStr) := by
  funext p
  unfold profileMatches
  congr 1
  funext pattern
  exact any_eq_of_mem_iff (mem_map_iff_of_mem_iff h) _

/-- C2: `estimateFeaturesFromTags` and `deriveVibeProfile` depend only on
the underlying set of input tags — reordering or duplicating entries
changes nothing, since matching and scoring work on the de-duplicated,
normalized tag set. -/
theorem C2_set_determinism (l1 l2 : List String) (h : ∀ t, t ∈ l1 ↔ t ∈ l2) :
    estimateFeaturesFromTags l1 = estimateFeaturesFromTags l2 ∧
    deriveVibeProfile l1 = deriveVibeProfile l2 := by
  constructor
  · unfold estimateFeaturesFromTags
    by_cases h0 : l1.length = 0
    · have h0' : l2.length = 0 := by
        rw [List.length_eq_zero] at h0 ⊢
        rw [List.eq_nil_iff_forall_not_mem] at h0 ⊢
        intro t ht
        exact h0 t ((h t).mpr ht)
      rw [if_pos h0, if_pos h0']
    · have h0' : ¬l2.length = 0 := by
        rw [List.length_eq_zero] at h0 ⊢
        rw [List.eq_nil_iff_forall_not_mem] at h0 ⊢
        intro hc
        exact h0 (fun t ht => hc t ((h t).mp ht))
      rw [if_neg h0, if_neg h0', profileMatches_eq_of_mem_iff h]
  · have hm : matchedVibes (normalizeTags l1) = matchedVibes (normalizeTags l2) :=
      matchedVibes_eq_of_perm (normalizeTags_perm h)
    have hr : rankedVibes (normalizeTags l1) = rankedVibes (normalizeTags l2) := by
      unfold rankedVibes
      rw [hm]
    simp only [deriveVibeProfile, hr]

/-- Witness for C2: a duplicated, reordered tag list yields exactly the
same estimate and the same vibe profile as its underlying set. -/
theorem C2_set_determinism_witness :
    (∀ t : String, t ∈ ["trap", "chill", "trap"] ↔ t ∈ ["chill", "trap"]) ∧
    estimateFeaturesFromTags ["trap", "chill", "trap"] =
      estimateFeaturesFromTags ["chill", "trap"] ∧
    deriveVibeProfile ["trap", "chill", "trap"] = deriveVibeProfile ["chill", "trap"] := by
  have h : ∀ t : String, t ∈ ["trap", "chill", "trap"] ↔ t ∈ ["chill", "trap"] := by
    intro t
    simp only [List.mem_cons, List.not_mem_nil, or_false]
    tauto
  exact ⟨h, (C2_set_determinism _ _ h).1, (C2_set_determinism _ _ h).2⟩

end SongDecoder
